import Mathlib

/-!
Shallow embedding of the hyperbolic-geometry core of the repository
(`src/components/hyperbolicMath` and `src/components/hyperbolicDrawing`),
over the real numbers.  JavaScript numbers are modelled by `ℝ`; a thrown
JavaScript `Error` is modelled by `Except Err`; the orchestrator
`completeTriangle`, whose `catch` block swallows the error and falls through
to an implicit `return undefined`, is modelled by `Option`.  JavaScript
`Math.acos` / `Math.asin` / `Math.acosh` outside their domains produce `NaN`;
Mathlib's junk values differ, so every theorem below that inspects such a
value first proves the argument in-domain.  Canvas drawing calls are
reified as a `Draw` list; the engine computes parameters and issues calls,
so an error result means the function threw before reaching its draw calls
(true for every throw site modelled here).
-/

open Real

open scoped Classical

noncomputable section

/-- Error kinds, one per distinct throw site in the drawing / math modules. -/
inductive Err where
  | invalidTriangle
  | insufficientData
  | tooManyInputs
  | ambiguousInput
  | outOfDomain
  | tooLarge
  | impossibleHyp
  | invalidSides
  | missingParams
  | invalidElements
  | angleOutOfRange
  | sameAngles
  | noLines
  | crashUndefined
  deriving DecidableEq

/-- A primitive call issued against the rendering surface:
either `ctx.arc` or a `moveTo`/`lineTo` segment. -/
inductive Draw where
  | arc (cx cy r a1 a2 : ℝ)
  | line (x1 y1 x2 y2 : ℝ)
  deriving DecidableEq

/-- The disk frame of the `HyperbolicDrawler` class: center `(X, Y)` and
outer radius `R` in screen coordinates. -/
structure Drawler where
  X : ℝ
  Y : ℝ
  R : ℝ

/-- The six-slot triangle measurement set `(A, a, B, b, C, c)`;
zero is the sentinel for an unknown slot. -/
structure Tri where
  A : ℝ
  a : ℝ
  B : ℝ
  b : ℝ
  C : ℝ
  c : ℝ

/-- `acosh` as implemented in the source: `log(x + sqrt(x*x - 1))`. -/
def acosh (x : ℝ) : ℝ := Real.log (x + Real.sqrt (x * x - 1))

/-- `asinh` as implemented in the source: `log(x + sqrt(x*x + 1))`. -/
def asinh (x : ℝ) : ℝ := Real.log (x + Real.sqrt (x * x + 1))

/-- `degrees2Radians`. -/
def degrees2Radians (x : ℝ) : ℝ := x * π / 180

/-- `radians2Degrees`. -/
def radians2Degrees (x : ℝ) : ℝ := 180 * x / π

/-- `atan2(y, x)` (JavaScript `Math.atan2` convention); only used to fill the
start/end angles of an arc, never reasoned about. -/
def atan2 (y x : ℝ) : ℝ :=
  if x > 0 then Real.arctan (y / x)
  else if x < 0 ∧ y ≥ 0 then Real.arctan (y / x) + π
  else if x < 0 then Real.arctan (y / x) - π
  else if y > 0 then π / 2
  else if y < 0 then -(π / 2)
  else 0

/-- `calculatePoincareAndGyrovectorRadius(r, rg)`: fills whichever of the
Poincaré radius / gyrovector radius is zero from the other. -/
def calculatePoincareAndGyrovectorRadius (r rg : ℝ) : ℝ × ℝ :=
  if r ≠ 0 ∧ rg = 0 then (r, Real.log ((1 + r) / (1 - r)))
  else if rg ≠ 0 ∧ r = 0 then (Real.tanh (rg / 2), rg)
  else (r, rg)

/-- `hyperbolicPythagorean(chx, chy, chc)`; returns the triple positionally,
exactly as the source destructures it. -/
def hyperbolicPythagorean (chx chy chc : ℝ) : ℝ × ℝ × ℝ :=
  if chx ≠ 0 ∧ chy ≠ 0 then (chx, chy, acosh (Real.cosh chy * Real.cosh chx))
  else if chx ≠ 0 ∧ chc ≠ 0 then (chx, acosh (Real.cosh chc / Real.cosh chx), chc)
  else if chy ≠ 0 ∧ chc ≠ 0 then (acosh (Real.cosh chc / Real.cosh chy), chy, chc)
  else (chx, chy, chc)

/-- The ratio basis `(G, g)` of `updateBySineRule`: the first complete
angle/side pair in the order (A,a), (B,b), (C,c), else `(0, 0)`. -/
def sinePair (sA sa sB sb sC sc : ℝ) : ℝ × ℝ :=
  if sa ≠ 0 ∧ sA ≠ 0 then (Real.sin sA, Real.sinh sa)
  else if sb ≠ 0 ∧ sB ≠ 0 then (Real.sin sB, Real.sinh sb)
  else if sc ≠ 0 ∧ sC ≠ 0 then (Real.sin sC, Real.sinh sc)
  else (0, 0)

/-- One fill block of `updateBySineRule` for an angle/side pair `(S, s)`:
derives the missing member from the basis `(G, g)`, with the domain guard
on the arcsine argument. -/
def sineFill (G g S s : ℝ) : Except Err (ℝ × ℝ) :=
  if S ≠ 0 ∧ s = 0 then .ok (S, asinh (Real.sin S * g / G))
  else if s ≠ 0 ∧ S = 0 then
    if -1 < Real.sinh s * G / g ∧ Real.sinh s * G / g < 1 then
      .ok (Real.arcsin (Real.sinh s * G / g), s)
    else .error .invalidTriangle
  else .ok (S, s)

/-- `updateBySineRule(sA, sa, sB, sb, sC, sc)`. -/
def updateBySineRule (sA sa sB sb sC sc : ℝ) : Except Err Tri :=
  if sA ≠ 0 ∨ sa ≠ 0 ∨ sB ≠ 0 ∨ sb ≠ 0 ∨ sC ≠ 0 ∨ sc ≠ 0 then
    let G := (sinePair sA sa sB sb sC sc).1
    let g := (sinePair sA sa sB sb sC sc).2
    if G ≠ 0 ∧ g ≠ 0 then do
      let Bb ← sineFill G g sB sb
      let Cc ← sineFill G g sC sc
      let Aa ← sineFill G g sA sa
      pure ⟨Aa.1, Aa.2, Bb.1, Bb.2, Cc.1, Cc.2⟩
    else pure ⟨sA, sa, sB, sb, sC, sc⟩
  else pure ⟨sA, sa, sB, sb, sC, sc⟩

/-- `updateByFirstCosineRule(A, a, b, c)`; pure, it has no domain guard. -/
def updateByFirstCosineRule (A a b c : ℝ) : ℝ × ℝ × ℝ × ℝ :=
  if a ≠ 0 ∧ A = 0 then
    (Real.arccos ((Real.cosh b * Real.cosh c - Real.cosh a) /
      (Real.sinh b * Real.sinh c)), a, b, c)
  else if a = 0 ∧ A ≠ 0 then
    (A, acosh (Real.cosh b * Real.cosh c -
      Real.sinh b * Real.sinh c * Real.cos A), b, c)
  else (A, a, b, c)

/-- `updateBySecondCosineRule(a, A, B, C)`, with the domain guard on
`cos(A)` in the angle-deriving branch. -/
def updateBySecondCosineRule (a A B C : ℝ) : Except Err (ℝ × ℝ × ℝ × ℝ) :=
  if a ≠ 0 ∧ A = 0 then
    if -1 < -Real.cos B * Real.cos C + Real.sin B * Real.sin C * Real.cosh a ∧
       -Real.cos B * Real.cos C + Real.sin B * Real.sin C * Real.cosh a < 1 then
      .ok (a, Real.arccos (-Real.cos B * Real.cos C +
        Real.sin B * Real.sin C * Real.cosh a), B, C)
    else .error .invalidTriangle
  else if a = 0 ∧ A ≠ 0 ∧ C ≠ 0 ∧ B ≠ 0 then
    .ok (acosh ((Real.cos B * Real.cos C + Real.cos A) /
      (Real.sin B * Real.sin C)), A, B, C)
  else .ok (a, A, B, C)

/-- `calculateMaximumAngleAndSide(A, a, b, c)`, with the domain guard on the
`tanh` product. -/
def calculateMaximumAngleAndSide (A a b c : ℝ) : Except Err (ℝ × ℝ × ℝ × ℝ) :=
  if -1 < Real.tanh (b / 2) * Real.tanh (c / 2) ∧
     Real.tanh (b / 2) * Real.tanh (c / 2) < 1 then
    .ok (Real.arccos (Real.tanh (b / 2) * Real.tanh (c / 2)),
      2 * asinh (Real.sqrt (Real.sinh (b / 2) ^ 2 + Real.sinh (c / 2) ^ 2)), b, c)
  else .error .invalidTriangle

/-- The three right-angle checks of `completeTriangle` (source lines 328-330);
note that each destructures the returned triple positionally into
`[a, b, c]`, whatever the argument order was. -/
def pythagoreanStep (t : Tri) : Tri :=
  let p1 := if t.A = degrees2Radians 90 then hyperbolicPythagorean t.c t.b t.a
            else (t.a, t.b, t.c)
  let p2 := if t.B = degrees2Radians 90 then hyperbolicPythagorean p1.2.2 p1.1 p1.2.1
            else p1
  let p3 := if t.C = degrees2Radians 90 then hyperbolicPythagorean p2.1 p2.2.1 p2.2.2
            else p2
  ⟨t.A, p3.1, t.B, p3.2.1, t.C, p3.2.2⟩

/-- The six-way cosine-rule pattern dispatch of `completeTriangle`
(source lines 332-337).  The conditions read the known-mask captured
before the Pythagorean step (`m`), while the values flow from the current
state (`t`) - exactly as in the source, where the `A1..c1` flags are stale. -/
def patternStep (m t : Tri) : Except Err Tri :=
  if m.A ≠ 0 ∧ m.c ≠ 0 ∧ m.B ≠ 0 then do
    let r ← updateBySecondCosineRule t.c t.C t.B t.A
    pure ⟨r.2.2.2, t.a, r.2.2.1, t.b, r.2.1, r.1⟩
  else if m.A ≠ 0 ∧ m.b ≠ 0 ∧ m.C ≠ 0 then do
    let r ← updateBySecondCosineRule t.b t.B t.A t.C
    pure ⟨r.2.2.1, t.a, r.2.1, r.1, r.2.2.2, t.c⟩
  else if m.B ≠ 0 ∧ m.a ≠ 0 ∧ m.C ≠ 0 then do
    let r ← updateBySecondCosineRule t.a t.A t.B t.C
    pure ⟨r.2.1, r.1, r.2.2.1, t.b, r.2.2.2, t.c⟩
  else if m.C ≠ 0 ∧ m.a ≠ 0 ∧ m.b ≠ 0 then
    let r := updateByFirstCosineRule t.C t.c t.b t.a
    pure ⟨t.A, r.2.2.2, t.B, r.2.2.1, r.1, r.2.1⟩
  else if m.A ≠ 0 ∧ m.c ≠ 0 ∧ m.b ≠ 0 then
    let r := updateByFirstCosineRule t.A t.a t.b t.c
    pure ⟨r.1, r.2.1, t.B, r.2.2.1, t.C, r.2.2.2⟩
  else if m.B ≠ 0 ∧ m.a ≠ 0 ∧ m.c ≠ 0 then
    let r := updateByFirstCosineRule t.B t.b t.a t.c
    pure ⟨t.A, r.2.2.1, r.1, r.2.1, t.C, r.2.2.2⟩
  else pure t

/-- The all-sides-known step of `completeTriangle` (source lines 341-345):
derive all three angles by the first cosine rule. -/
def sidesStep (t : Tri) : Tri :=
  if t.a ≠ 0 ∧ t.b ≠ 0 ∧ t.c ≠ 0 then
    let r1 := updateByFirstCosineRule t.B t.b t.a t.c
    let u1 : Tri := ⟨t.A, r1.2.2.1, r1.1, r1.2.1, t.C, r1.2.2.2⟩
    let r2 := updateByFirstCosineRule u1.A u1.a u1.b u1.c
    let u2 : Tri := ⟨r2.1, r2.2.1, u1.B, r2.2.2.1, u1.C, r2.2.2.2⟩
    let r3 := updateByFirstCosineRule u2.C u2.c u2.b u2.a
    ⟨u2.A, r3.2.2.2, u2.B, r3.2.2.1, r3.1, r3.2.1⟩
  else t

/-- The angle-angle-angle step of `completeTriangle` (source lines 349-353):
conditions use the mask `m` captured at line 339, values flow from `t`. -/
def aaaStep (m t : Tri) : Except Err Tri :=
  if m.A ≠ 0 ∧ m.B ≠ 0 ∧ m.C ≠ 0 ∧ m.a = 0 ∧ m.b = 0 ∧ m.c = 0 then do
    let r1 ← updateBySecondCosineRule t.a t.A t.B t.C
    let u1 : Tri := ⟨r1.2.1, r1.1, r1.2.2.1, t.b, r1.2.2.2, t.c⟩
    let r2 ← updateBySecondCosineRule u1.c u1.C u1.B u1.A
    let u2 : Tri := ⟨r2.2.2.2, u1.a, r2.2.2.1, u1.b, r2.2.1, r2.1⟩
    let r3 ← updateBySecondCosineRule u2.b u2.B u2.A u2.C
    pure ⟨r3.2.2.1, u2.a, r3.2.1, r3.1, r3.2.2.2, u2.c⟩
  else pure t

/-- First conditional of the maximum-angle/side step (source line 357):
condition on the stale mask `m`, values from the current state `u`. -/
def maxStepA (m u : Tri) : Except Err Tri :=
  if m.a ≠ 0 ∧ m.b ≠ 0 ∧ ¬(m.a ≠ 0 ∧ m.b ≠ 0 ∧ m.C ≠ 0) ∧
     m.A = 0 ∧ m.C = 0 ∧ m.B = 0 then do
    let r ← calculateMaximumAngleAndSide u.C u.c u.b u.a
    pure (⟨u.A, r.2.2.2, u.B, r.2.2.1, r.1, r.2.1⟩ : Tri)
  else pure u

/-- Second conditional of the maximum-angle/side step (source line 358). -/
def maxStepB (m u : Tri) : Except Err Tri :=
  if m.a ≠ 0 ∧ m.c ≠ 0 ∧ ¬(m.a ≠ 0 ∧ m.c ≠ 0 ∧ m.B ≠ 0) ∧
     m.A = 0 ∧ m.C = 0 ∧ m.B = 0 then do
    let r ← calculateMaximumAngleAndSide u.B u.b u.a u.c
    pure (⟨u.A, r.2.2.1, r.1, r.2.1, u.C, r.2.2.2⟩ : Tri)
  else pure u

/-- Third conditional of the maximum-angle/side step (source line 359). -/
def maxStepC (m u : Tri) : Except Err Tri :=
  if m.c ≠ 0 ∧ m.b ≠ 0 ∧ ¬(m.c ≠ 0 ∧ m.b ≠ 0 ∧ m.A ≠ 0) ∧
     m.A = 0 ∧ m.C = 0 ∧ m.B = 0 then do
    let r ← calculateMaximumAngleAndSide u.A u.a u.b u.c
    pure (⟨r.1, r.2.1, u.B, r.2.2.1, u.C, r.2.2.2⟩ : Tri)
  else pure u

/-- The maximum-angle/side step of `completeTriangle` (source lines 357-359):
three sequential conditionals, all reading the mask captured at line 355
(`t` itself) while the values flow. -/
def maxStep (t : Tri) : Except Err Tri := do
  let u1 ← maxStepA t t
  let u2 ← maxStepB t u1
  maxStepC t u2

/-- The body of `completeTriangle` up to (and excluding) the `catch`:
the fixed sequence of solver passes, with the exact mask-capture points
of the source. -/
def completeTriangleE (t0 : Tri) : Except Err Tri := do
  let t1 ← updateBySineRule t0.A t0.a t0.B t0.b t0.C t0.c
  let t2 := pythagoreanStep t1
  let t3 ← patternStep t1 t2
  let t4 := sidesStep t3
  let t5 ← updateBySineRule t4.A t4.a t4.B t4.b t4.C t4.c
  let t6 ← aaaStep t3 t5
  let t7 ← maxStep t6
  updateBySineRule t7.A t7.a t7.B t7.b t7.C t7.c

/-- `completeTriangle(A, a, B, b, C, c)`: its `catch` block logs and falls
through, so a thrown error becomes an `undefined` return - modelled as
`none`. -/
def completeTriangle (t : Tri) : Option Tri := (completeTriangleE t).toOption

/-- `drawCurvature(A, B, C, One, aung, bung)`: one circular arc if the angle
defect is nonzero, otherwise one straight full-diameter chord. -/
def drawCurvature (d : Drawler) (A B C One aung bung : ℝ) : Draw :=
  if Real.cos (π - (A + B + C)) ≠ 1 then
    let rk := Real.sqrt (((Real.sin C * bung * d.R) ^ 2 +
      (bung * d.R * Real.cos C - aung * d.R) ^ 2) /
      (2 * (1 - Real.cos (π - A - B - C))))
    let cx := d.X + rk * Real.cos B * Real.cos One +
      (aung * d.R + rk * Real.sin B) * Real.sin One
    let cy := d.Y + (aung * d.R + rk * Real.sin B) * Real.cos One -
      rk * Real.cos B * Real.sin One
    let sx := d.X + aung * d.R * Real.sin One
    let sy := d.Y + aung * d.R * Real.cos One
    let ex := d.X + Real.sin (One + C) * bung * d.R
    let ey := d.Y + bung * d.R * Real.cos (C + One)
    .arc cx cy rk (atan2 (sy - cy) (sx - cx)) (atan2 (ey - cy) (ex - cx))
  else
    .line (d.X + d.R * Real.cos (One + π / 2)) (d.Y - d.R * Real.sin (One + π / 2))
      (d.X + d.R * Real.cos (One + 1.5 * π)) (d.Y - d.R * Real.sin (One + 1.5 * π))

/-- `createTrangle(A, a, B, b, C, c, One)` (name as in the source): two
straight radial sides, then the curved third side. -/
def createTrangle (d : Drawler) (t : Tri) (One : ℝ) : List Draw :=
  let aung := (calculatePoincareAndGyrovectorRadius 0 t.a).1
  let bung := (calculatePoincareAndGyrovectorRadius 0 t.b).1
  [Draw.line d.X d.Y (d.X + aung * d.R * Real.sin One) (d.Y + aung * d.R * Real.cos One),
   Draw.line d.X d.Y (d.X + Real.sin (One + t.C) * bung * d.R)
     (d.Y + bung * d.R * Real.cos (t.C + One)),
   drawCurvature d t.A t.B t.C One aung bung]

/-- Indicator for a known (nonzero) slot, for the caller-side input count. -/
def indK (x : ℝ) : ℕ := if x ≠ 0 then 1 else 0

/-- The known-input count of `handleTriangleDrawing`
(`[A, B, C, a, b, c].filter(v => v !== 0).length`). -/
def countKnown (A B C a b c : ℝ) : ℕ :=
  indK A + indK B + indK C + indK a + indK b + indK c

/-- The body of `handleTriangleDrawing` after the degree conversions:
pre-validation, completion, post-validation, then the triangle draw.
Destructuring the `undefined` returned by a failed completion is a
JavaScript `TypeError`, modelled as `Err.crashUndefined`. -/
def handleTriangleDrawingCore (d : Drawler) (A a B b C c One : ℝ) :
    Except Err (List Draw) :=
  if countKnown A B C a b c < 2 ∨ countKnown A B C a b c > 3 then
    .error (if countKnown A B C a b c > 3 then .tooManyInputs else .insufficientData)
  else if (c ≥ a + b ∨ a ≥ c + b ∨ b ≥ a + c) ∧ a ≠ 0 ∧ b ≠ 0 ∧ c ≠ 0 then
    .error .invalidTriangle
  else if (A = π ∨ B = π ∨ C = π) ∧ A ≠ 0 ∧ B ≠ 0 ∧ C ≠ 0 then
    .error .invalidTriangle
  else if A + B + C ≥ π ∧ A ≠ 0 ∧ B ≠ 0 ∧ C ≠ 0 then
    .error .invalidTriangle
  else if A < 0 ∨ B < 0 ∨ C < 0 then
    .error .invalidTriangle
  else
    match completeTriangle ⟨A, a, B, b, C, c⟩ with
    | none => .error .crashUndefined
    | some t =>
      if (t.A ≠ 0 ∧ t.B ≠ 0 ∧ t.C = 0 ∧ t.a ≠ 0 ∧ t.b ≠ 0 ∧ t.c = 0) ∨
         (t.A ≠ 0 ∧ t.C ≠ 0 ∧ t.B = 0 ∧ t.a ≠ 0 ∧ t.b = 0 ∧ t.c ≠ 0) ∨
         (t.A = 0 ∧ t.B ≠ 0 ∧ t.C ≠ 0 ∧ t.a = 0 ∧ t.b ≠ 0 ∧ t.c ≠ 0) then
        .error .insufficientData
      else if t.c ≥ t.a + t.b ∨ t.a ≥ t.c + t.b ∨ t.b ≥ t.a + t.c then
        .error .invalidTriangle
      else
        .ok (createTrangle d t (One + π / 2))

/-- `handleTriangleDrawing(A, a, B, b, C, c, One)`: the source first converts
the three angles and the rotation from degrees to radians (the sides are not
converted), then runs the validation/completion/draw body. -/
def handleTriangleDrawing (d : Drawler) (A0 a B0 b C0 c One0 : ℝ) :
    Except Err (List Draw) :=
  handleTriangleDrawingCore d (degrees2Radians A0) a (degrees2Radians B0) b
    (degrees2Radians C0) c (degrees2Radians One0)

/-- `createPolygon(x, U, One)`: validation, shared side solve by the second
cosine rule, then one `drawCurvature` per side (loop `i = 1..x`, offset
`-(C/2) + (i-1)·C + One`).  The trailing `completeTriangle` call of the
source has its result discarded and cannot throw (it catches internally),
so it is omitted. -/
def createPolygon (d : Drawler) (x : ℕ) (U One : ℝ) : Except Err (List Draw) :=
  if x < 1 then .error .invalidElements
  else if x = 0 ∨ U = 0 then .error .missingParams
  else if x < 3 then .error .invalidSides
  else if (x : ℝ) * U ≥ ((x : ℝ) - 2) * 180 then .error .impossibleHyp
  else
    match updateBySecondCosineRule 0 (U / 2) (2 * π / (x : ℝ)) (U / 2) with
    | .error e => .error e
    | .ok r =>
      .ok ((List.range x).map fun (i : ℕ) =>
        drawCurvature d (U / 2) (U / 2) (2 * π / (x : ℝ))
          (-(2 * π / (x : ℝ) / 2) + (i : ℝ) * (2 * π / (x : ℝ)) + One)
          ((calculatePoincareAndGyrovectorRadius 0 r.1).1)
          ((calculatePoincareAndGyrovectorRadius 0 r.1).1))

/-- `createHyperbolicLine(a1, a2)`: a geodesic between two boundary angles,
via a degenerate isosceles triangle with legs at disk fraction 0.999.
Issues exactly one primitive draw on success. -/
def createHyperbolicLine (d : Drawler) (b1 b2 : ℝ) : Except Err Draw :=
  if b1 > 360 ∨ b2 > 360 then .error .angleOutOfRange
  else if b1 = b2 then .error .sameAngles
  else
    let a1 := if b2 - b1 > π then 2 * π + b1 else b1
    let a2 := if a1 - b2 > π then 2 * π + b2 else b2
    let C := if a2 > a1 then a2 - a1 else a1 - a2
    if |a1 - a2| = π then
      .ok (.line (d.X + d.R * Real.cos a1) (d.Y - d.R * Real.sin a1)
        (d.X + d.R * Real.cos a2) (d.Y - d.R * Real.sin a2))
    else do
      let a := (calculatePoincareAndGyrovectorRadius 0.999 0).2
      let c := (updateByFirstCosineRule C a a a).2.2.2
      let r ← updateBySineRule 0 0.999 0 0.999 C c
      pure (drawCurvature d r.A r.B C ((a1 + a2) / 2 + π / 2 - C / 2) 0.999 0.999)

/-- A `for` loop issuing one fallible draw per index, collecting the draws
in order and aborting on the first error. -/
def drawEach (f : ℕ → Except Err Draw) : List ℕ → Except Err (List Draw)
  | [] => .ok []
  | i :: is =>
    match f i with
    | .error e => .error e
    | .ok w =>
      match drawEach f is with
      | .error e => .error e
      | .ok ws => .ok (w :: ws)

/-- `createParallels(k, a1)`: a fan of geodesics around `a1` with step
`2π/(k+1)` (loops `i = 1..k/2` on each side); an odd count inserts one
extra line at a 179-degree offset between the two loops. -/
def createParallels (d : Drawler) (k : ℕ) (a1 : ℝ) : Except Err (List Draw) :=
  if a1 > 360 then .error .angleOutOfRange
  else if k = 0 then .error .noLines
  else if k % 2 = 1 then
    match drawEach (fun i => createHyperbolicLine d a1
        (a1 + ((i : ℝ) + 1) * (2 * π / ((k : ℝ) + 1)))) (List.range ((k - 1) / 2)) with
    | .error e => .error e
    | .ok l1 =>
      match createHyperbolicLine d a1 (a1 + degrees2Radians 179) with
      | .error e => .error e
      | .ok lm =>
        match drawEach (fun i => createHyperbolicLine d a1
            (a1 - ((i : ℝ) + 1) * (2 * π / ((k : ℝ) + 1)))) (List.range ((k - 1) / 2)) with
        | .error e => .error e
        | .ok l2 => .ok (l1 ++ [lm] ++ l2)
  else
    match drawEach (fun i => createHyperbolicLine d a1
        (a1 + ((i : ℝ) + 1) * (2 * π / ((k : ℝ) + 1)))) (List.range (k / 2)) with
    | .error e => .error e
    | .ok l1 =>
      match drawEach (fun i => createHyperbolicLine d a1
          (a1 - ((i : ℝ) + 1) * (2 * π / ((k : ℝ) + 1)))) (List.range (k / 2)) with
      | .error e => .error e
      | .ok l2 => .ok (l1 ++ l2)

/-- `handleCircleDrawing(R1, RG)`: exactly one of the Poincaré / gyrovector
radii must be given; radius domain checks, then one circle draw. -/
def handleCircleDrawing (d : Drawler) (R1 RG : ℝ) : Except Err Draw :=
  if (R1 ≠ 0 ∧ RG ≠ 0) ∨ (R1 = 0 ∧ RG = 0) then .error .ambiguousInput
  else if R1 < 1 then
    let p := calculatePoincareAndGyrovectorRadius R1 RG
    if p.2 > 35 then .error .tooLarge
    else .ok (.arc d.X d.Y (p.1 * d.R) 0 (2 * π))
  else .error .outOfDomain

/-- A valid hyperbolic triangle: positive sides, angles strictly inside
`(0, π)`, positive angle defect, and the three hyperbolic law-of-cosines
identities (which pin the angles to the sides). -/
def IsValidTriangle (t : Tri) : Prop :=
  0 < t.a ∧ 0 < t.b ∧ 0 < t.c ∧
  0 < t.A ∧ t.A < π ∧ 0 < t.B ∧ t.B < π ∧ 0 < t.C ∧ t.C < π ∧
  t.A + t.B + t.C < π ∧
  Real.cosh t.a = Real.cosh t.b * Real.cosh t.c -
    Real.sinh t.b * Real.sinh t.c * Real.cos t.A ∧
  Real.cosh t.b = Real.cosh t.a * Real.cosh t.c -
    Real.sinh t.a * Real.sinh t.c * Real.cos t.B ∧
  Real.cosh t.c = Real.cosh t.a * Real.cosh t.b -
    Real.sinh t.a * Real.sinh t.b * Real.cos t.C

/-- The common angle of the equilateral hyperbolic triangle with unit sides:
`arccos(cosh 1 / (cosh 1 + 1))`. -/
def eqAngle : ℝ := Real.arccos (Real.cosh 1 / (Real.cosh 1 + 1))

/-- The equilateral hyperbolic triangle with all three sides equal to 1. -/
def eqTri : Tri := ⟨eqAngle, 1, eqAngle, 1, eqAngle, 1⟩

/-- The cosine produced by the second cosine rule for the angle-side-angle
input `(A, B, c) = (2π/3, 2π/3, 1/2)`. -/
def vGhost : ℝ :=
  -Real.cos (2 * π / 3) * Real.cos (2 * π / 3) +
    Real.sin (2 * π / 3) * Real.sin (2 * π / 3) * Real.cosh (1 / 2)

/-- The third angle the completion derives for that input. -/
def gammaGhost : ℝ := Real.arccos vGhost

/-- The two equal sides the completion derives for that input. -/
def sGhost : ℝ :=
  asinh (Real.sin (2 * π / 3) * Real.sinh (1 / 2) / Real.sin gammaGhost)

/-- The fully populated 6-tuple the completion returns for the inconsistent
angle-side-angle input `(2π/3, 0, 2π/3, 0, 0, 1/2)`; its angle sum exceeds π. -/
def ghostTri : Tri := ⟨2 * π / 3, sGhost, 2 * π / 3, sGhost, gammaGhost, 1 / 2⟩

end

/-! ### Branch-evaluation lemmas for the law solvers -/

@[simp] lemma exceptPure_eq_ok {α : Type} (x : α) : (pure x : Except Err α) = .ok x := rfl

@[simp] lemma exceptBind_ok {α β : Type} (x : α) (f : α → Except Err β) :
    (Except.ok x >>= f : Except Err β) = f x := rfl

@[simp] lemma exceptBind_error {α β : Type} (e : Err) (f : α → Except Err β) :
    (Except.error e >>= f : Except Err β) = .error e := rfl

lemma sinePair_first {sA sa sB sb sC sc : ℝ} (h : sa ≠ 0 ∧ sA ≠ 0) :
    sinePair sA sa sB sb sC sc = (Real.sin sA, Real.sinh sa) := by
  unfold sinePair; rw [if_pos h]

lemma sinePair_third {sA sa sB sb sC sc : ℝ} (h1 : ¬(sa ≠ 0 ∧ sA ≠ 0))
    (h2 : ¬(sb ≠ 0 ∧ sB ≠ 0)) (h3 : sc ≠ 0 ∧ sC ≠ 0) :
    sinePair sA sa sB sb sC sc = (Real.sin sC, Real.sinh sc) := by
  unfold sinePair; rw [if_neg h1, if_neg h2, if_pos h3]

lemma sinePair_none {sA sa sB sb sC sc : ℝ} (h1 : ¬(sa ≠ 0 ∧ sA ≠ 0))
    (h2 : ¬(sb ≠ 0 ∧ sB ≠ 0)) (h3 : ¬(sc ≠ 0 ∧ sC ≠ 0)) :
    sinePair sA sa sB sb sC sc = (0, 0) := by
  unfold sinePair; rw [if_neg h1, if_neg h2, if_neg h3]

lemma sineFill_noop {G g S s : ℝ} (h1 : ¬(S ≠ 0 ∧ s = 0)) (h2 : ¬(s ≠ 0 ∧ S = 0)) :
    sineFill G g S s = .ok (S, s) := by
  unfold sineFill; rw [if_neg h1, if_neg h2]

lemma sineFill_both {G g S s : ℝ} (hS : S ≠ 0) (hs : s ≠ 0) :
    sineFill G g S s = .ok (S, s) :=
  sineFill_noop (fun h => hs h.2) (fun h => hS h.2)

lemma sineFill_zeros {G g S s : ℝ} (hS : S = 0) (hs : s = 0) :
    sineFill G g S s = .ok (S, s) :=
  sineFill_noop (fun h => h.1 hS) (fun h => h.1 hs)

lemma sineFill_side {G g S s : ℝ} (hS : S ≠ 0) (hs : s = 0) :
    sineFill G g S s = .ok (S, asinh (Real.sin S * g / G)) := by
  unfold sineFill; rw [if_pos ⟨hS, hs⟩]

lemma sineFill_angle {G g S s : ℝ} (hs : s ≠ 0) (hS : S = 0)
    (hg : -1 < Real.sinh s * G / g ∧ Real.sinh s * G / g < 1) :
    sineFill G g S s = .ok (Real.arcsin (Real.sinh s * G / g), s) := by
  unfold sineFill; rw [if_neg (fun h => h.1 hS), if_pos ⟨hs, hS⟩, if_pos hg]

lemma sineFill_guardFail {G g S s : ℝ} (hs : s ≠ 0) (hS : S = 0)
    (hg : ¬(-1 < Real.sinh s * G / g ∧ Real.sinh s * G / g < 1)) :
    sineFill G g S s = .error .invalidTriangle := by
  unfold sineFill; rw [if_neg (fun h => h.1 hS), if_pos ⟨hs, hS⟩, if_neg hg]

/-- Sine rule with no complete angle/side pair: identity. -/
lemma updateBySineRule_noPair {sA sa sB sb sC sc : ℝ} (h1 : ¬(sa ≠ 0 ∧ sA ≠ 0))
    (h2 : ¬(sb ≠ 0 ∧ sB ≠ 0)) (h3 : ¬(sc ≠ 0 ∧ sC ≠ 0)) :
    updateBySineRule sA sa sB sb sC sc = .ok ⟨sA, sa, sB, sb, sC, sc⟩ := by
  unfold updateBySineRule
  rw [sinePair_none h1 h2 h3]
  split_ifs with ho
  · simp
  · rfl

/-- Sine rule with the `(A, a)` pair as basis: the three fill blocks run with
`G = sin A`, `g = sinh a`. -/
lemma updateBySineRule_basisA {sA sa sB sb sC sc : ℝ} (ha : sa ≠ 0) (hA : sA ≠ 0)
    (hG : Real.sin sA ≠ 0) (hg : Real.sinh sa ≠ 0) :
    updateBySineRule sA sa sB sb sC sc =
      (do
        let Bb ← sineFill (Real.sin sA) (Real.sinh sa) sB sb
        let Cc ← sineFill (Real.sin sA) (Real.sinh sa) sC sc
        let Aa ← sineFill (Real.sin sA) (Real.sinh sa) sA sa
        pure ⟨Aa.1, Aa.2, Bb.1, Bb.2, Cc.1, Cc.2⟩) := by
  unfold updateBySineRule
  rw [sinePair_first ⟨ha, hA⟩]
  rw [if_pos (Or.inl hA), if_pos ⟨hG, hg⟩]

/-- Sine rule with the `(C, c)` pair as basis. -/
lemma updateBySineRule_basisC {sA sa sB sb sC sc : ℝ} (h1 : ¬(sa ≠ 0 ∧ sA ≠ 0))
    (h2 : ¬(sb ≠ 0 ∧ sB ≠ 0)) (hc : sc ≠ 0) (hC : sC ≠ 0)
    (hG : Real.sin sC ≠ 0) (hg : Real.sinh sc ≠ 0) :
    updateBySineRule sA sa sB sb sC sc =
      (do
        let Bb ← sineFill (Real.sin sC) (Real.sinh sc) sB sb
        let Cc ← sineFill (Real.sin sC) (Real.sinh sc) sC sc
        let Aa ← sineFill (Real.sin sC) (Real.sinh sc) sA sa
        pure ⟨Aa.1, Aa.2, Bb.1, Bb.2, Cc.1, Cc.2⟩) := by
  unfold updateBySineRule
  rw [sinePair_third h1 h2 ⟨hc, hC⟩]
  rw [if_pos (Or.inr (Or.inr (Or.inr (Or.inr (Or.inl hC))))), if_pos ⟨hG, hg⟩]

/-- Sine rule on a fully known tuple with `(A, a)` basis: identity. -/
lemma updateBySineRule_allKnown {sA sa sB sb sC sc : ℝ} (hA : sA ≠ 0) (ha : sa ≠ 0)
    (hB : sB ≠ 0) (hb : sb ≠ 0) (hC : sC ≠ 0) (hc : sc ≠ 0)
    (hG : Real.sin sA ≠ 0) (hg : Real.sinh sa ≠ 0) :
    updateBySineRule sA sa sB sb sC sc = .ok ⟨sA, sa, sB, sb, sC, sc⟩ := by
  rw [updateBySineRule_basisA ha hA hG hg, sineFill_both hB hb,
    sineFill_both hC hc, sineFill_both hA ha]
  rfl

/-- First cosine rule, angle-deriving branch. -/
lemma updateByFirstCosineRule_angle {A a b c : ℝ} (ha : a ≠ 0) (hA : A = 0) :
    updateByFirstCosineRule A a b c =
      (Real.arccos ((Real.cosh b * Real.cosh c - Real.cosh a) /
        (Real.sinh b * Real.sinh c)), a, b, c) := by
  unfold updateByFirstCosineRule; rw [if_pos ⟨ha, hA⟩]

/-- First cosine rule, both known: identity. -/
lemma updateByFirstCosineRule_noop {A a b c : ℝ} (ha : a ≠ 0) (hA : A ≠ 0) :
    updateByFirstCosineRule A a b c = (A, a, b, c) := by
  unfold updateByFirstCosineRule
  rw [if_neg (fun h => hA h.2), if_neg (fun h => ha h.1)]

/-- Second cosine rule, angle-deriving branch with a passing guard. -/
lemma updateBySecondCosineRule_angle {a A B C : ℝ} (ha : a ≠ 0) (hA : A = 0)
    (hg : -1 < -Real.cos B * Real.cos C + Real.sin B * Real.sin C * Real.cosh a ∧
      -Real.cos B * Real.cos C + Real.sin B * Real.sin C * Real.cosh a < 1) :
    updateBySecondCosineRule a A B C = .ok (a,
      Real.arccos (-Real.cos B * Real.cos C + Real.sin B * Real.sin C * Real.cosh a),
      B, C) := by
  unfold updateBySecondCosineRule; rw [if_pos ⟨ha, hA⟩, if_pos hg]

/-- Second cosine rule, both known: identity. -/
lemma updateBySecondCosineRule_noop {a A B C : ℝ} (ha : a ≠ 0) (hA : A ≠ 0) :
    updateBySecondCosineRule a A B C = .ok (a, A, B, C) := by
  unfold updateBySecondCosineRule
  rw [if_neg (fun h => hA h.2), if_neg (fun h => ha h.1)]

/-- Second cosine rule, side-deriving branch. -/
lemma updateBySecondCosineRule_side {a A B C : ℝ} (ha : a = 0) (hA : A ≠ 0)
    (hC : C ≠ 0) (hB : B ≠ 0) :
    updateBySecondCosineRule a A B C = .ok (acosh ((Real.cos B * Real.cos C +
      Real.cos A) / (Real.sin B * Real.sin C)), A, B, C) := by
  unfold updateBySecondCosineRule
  rw [if_neg (fun h => h.1 ha), if_pos ⟨ha, hA, hC, hB⟩]

/-! ### The source's asinh/acosh agree with Mathlib's inverses -/

lemma asinh_eq_arsinh (x : ℝ) : asinh x = Real.arsinh x := by
  unfold asinh Real.arsinh
  ring_nf

lemma asinh_sinh (x : ℝ) : asinh (Real.sinh x) = x := by
  rw [asinh_eq_arsinh, Real.arsinh_sinh]

lemma asinh_pos {x : ℝ} (hx : 0 < x) : 0 < asinh x := by
  rw [asinh_eq_arsinh]; exact Real.arsinh_pos_iff.mpr hx

lemma asinh_ne_zero {x : ℝ} (hx : 0 < x) : asinh x ≠ 0 := ne_of_gt (asinh_pos hx)

lemma acosh_cosh {x : ℝ} (hx : 0 ≤ x) : acosh (Real.cosh x) = x := by
  unfold acosh
  have hs : Real.cosh x * Real.cosh x - 1 = Real.sinh x ^ 2 := by
    have h := Real.cosh_sq x
    nlinarith [h]
  have h0 : 0 ≤ Real.sinh x := by
    rw [← Real.sinh_zero]
    exact Real.sinh_le_sinh.mpr hx
  rw [hs, Real.sqrt_sq h0, Real.cosh_add_sinh, Real.log_exp]

/-! ### Numeric bounds on the transcendental constants involved -/

lemma exp_half_lt : Real.exp (1 / 2) < 1.6488 := by
  have h : Real.exp (1 / 2) * Real.exp (1 / 2) = Real.exp 1 := by
    rw [← Real.exp_add]; norm_num
  nlinarith [Real.exp_one_lt_d9, Real.exp_pos (1 / 2 : ℝ), h]

lemma exp_quarter_lt : Real.exp (1 / 4) < 1.285 := by
  have h : Real.exp (1 / 4) * Real.exp (1 / 4) = Real.exp (1 / 2) := by
    rw [← Real.exp_add]; norm_num
  nlinarith [exp_half_lt, Real.exp_pos (1 / 4 : ℝ), h]

lemma exp_neg_quarter_gt : (0.778 : ℝ) < Real.exp (-(1 / 4)) := by
  have h : Real.exp (-(1 / 4)) * Real.exp (1 / 4) = 1 := by
    rw [← Real.exp_add]; norm_num [Real.exp_zero]
  nlinarith [exp_quarter_lt, Real.exp_pos (-(1 / 4) : ℝ), h]

lemma exp_neg_one_gt : (0.36 : ℝ) < Real.exp (-1) := by
  have h : Real.exp (-1) * Real.exp 1 = 1 := by
    rw [← Real.exp_add]; norm_num [Real.exp_zero]
  nlinarith [Real.exp_one_lt_d9, Real.exp_pos (-1 : ℝ), h]

lemma cosh_one_lt : Real.cosh 1 < 8 / 5 := by
  rw [Real.cosh_eq]
  have h : Real.exp (-1) * Real.exp 1 = 1 := by
    rw [← Real.exp_add]; norm_num [Real.exp_zero]
  nlinarith [Real.exp_one_lt_d9, Real.exp_one_gt_d9, Real.exp_pos (-1 : ℝ), h]

lemma one_lt_cosh_one : 1 < Real.cosh 1 :=
  Real.one_lt_cosh.mpr one_ne_zero

lemma cosh_half_lt : Real.cosh (1 / 2) < 5 / 3 := by
  rw [Real.cosh_eq]
  have h1 : Real.exp (-(1 / 2)) < 1 := by
    rw [Real.exp_lt_one_iff]; norm_num
  nlinarith [exp_half_lt, Real.exp_pos (-(1 / 2) : ℝ)]

lemma sinh_one_lt : Real.sinh 1 < 6 / 5 := by
  rw [Real.sinh_eq]
  nlinarith [Real.exp_one_lt_d9, exp_neg_one_gt]

lemma sinh_one_pos : 0 < Real.sinh 1 := Real.sinh_pos_iff.mpr one_pos

lemma sinh_half_pos : 0 < Real.sinh (1 / 2) := Real.sinh_pos_iff.mpr (by norm_num)

lemma half_lt_sinh_half : (1 / 2 : ℝ) < Real.sinh (1 / 2) :=
  Real.self_lt_sinh_iff.mpr (by norm_num)

lemma sinh_quarter_lt : Real.sinh (1 / 4) < 0.26 := by
  rw [Real.sinh_eq]
  nlinarith [exp_quarter_lt, exp_neg_quarter_gt]

lemma sqrt_three_gt : (1.72 : ℝ) < Real.sqrt 3 := by
  rw [show (1.72 : ℝ) = 1.72 from rfl]
  have := (Real.lt_sqrt (by norm_num : (0 : ℝ) ≤ 1.72)).mpr
    (by norm_num : (1.72 : ℝ) ^ 2 < 3)
  exact this

lemma sin_two_pi_div_three : Real.sin (2 * π / 3) = Real.sqrt 3 / 2 := by
  rw [show 2 * π / 3 = π - π / 3 by ring, Real.sin_pi_sub, Real.sin_pi_div_three]

lemma cos_two_pi_div_three : Real.cos (2 * π / 3) = -(1 / 2) := by
  rw [show 2 * π / 3 = π - π / 3 by ring, Real.cos_pi_sub, Real.cos_pi_div_three]

/-! ### Facts about the unit equilateral hyperbolic triangle -/

lemma eqRatio_pos : 0 < Real.cosh 1 / (Real.cosh 1 + 1) := by
  have h := Real.cosh_pos (x := (1 : ℝ))
  positivity

lemma eqRatio_lt_one : Real.cosh 1 / (Real.cosh 1 + 1) < 1 := by
  have h := Real.cosh_pos (x := (1 : ℝ))
  rw [div_lt_one (by linarith)]
  linarith

lemma cos_eqAngle : Real.cos eqAngle = Real.cosh 1 / (Real.cosh 1 + 1) :=
  Real.cos_arccos (by linarith [eqRatio_pos]) (le_of_lt eqRatio_lt_one)

lemma eqAngle_pos : 0 < eqAngle := Real.arccos_pos.mpr eqRatio_lt_one

lemma eqAngle_lt_pi : eqAngle < π := by
  refine lt_of_le_of_ne (Real.arccos_le_pi _) (fun h => ?_)
  rw [eqAngle, Real.arccos_eq_pi] at h
  linarith [eqRatio_pos]

lemma eqAngle_lt_pi_div_three : eqAngle < π / 3 := by
  by_contra h
  push_neg at h
  have h2 : Real.cos eqAngle ≤ Real.cos (π / 3) :=
    Real.cos_le_cos_of_nonneg_of_le_pi (by positivity) (Real.arccos_le_pi _) h
  rw [Real.cos_pi_div_three, cos_eqAngle] at h2
  have hc := one_lt_cosh_one
  rw [div_le_iff (by linarith)] at h2
  linarith

lemma eqAngle_ne_half_pi : eqAngle ≠ π / 2 := by
  intro h
  have := cos_eqAngle
  rw [h, Real.cos_pi_div_two] at this
  exact absurd this.symm (ne_of_gt eqRatio_pos)

lemma sin_eqAngle_pos : 0 < Real.sin eqAngle :=
  Real.sin_pos_of_pos_of_lt_pi eqAngle_pos eqAngle_lt_pi

lemma eqAngle_law : Real.cosh 1 =
    Real.cosh 1 * Real.cosh 1 - Real.sinh 1 * Real.sinh 1 * Real.cos eqAngle := by
  rw [cos_eqAngle]
  have hs : Real.sinh 1 * Real.sinh 1 = Real.cosh 1 ^ 2 - 1 := by
    nlinarith [Real.sinh_sq (1 : ℝ)]
  have hne : Real.cosh 1 + 1 ≠ 0 := by
    have := Real.cosh_pos (x := (1 : ℝ)); linarith
  rw [hs]
  field_simp
  ring

lemma eqTri_valid : IsValidTriangle eqTri := by
  refine ⟨one_pos, one_pos, one_pos, eqAngle_pos, eqAngle_lt_pi, eqAngle_pos,
    eqAngle_lt_pi, eqAngle_pos, eqAngle_lt_pi, ?_, eqAngle_law, eqAngle_law, eqAngle_law⟩
  have := eqAngle_lt_pi_div_three
  show eqAngle + eqAngle + eqAngle < π
  linarith

/-! ### Step lemmas for the completion pipeline -/

lemma deg90_eq : degrees2Radians 90 = π / 2 := by
  unfold degrees2Radians; ring

lemma pythagoreanStep_noop {t : Tri} (h1 : t.A ≠ π / 2) (h2 : t.B ≠ π / 2)
    (h3 : t.C ≠ π / 2) : pythagoreanStep t = t := by
  unfold pythagoreanStep
  simp only [deg90_eq, if_neg h1, if_neg h2, if_neg h3]

lemma patternStep_none {m t : Tri}
    (h1 : ¬(m.A ≠ 0 ∧ m.c ≠ 0 ∧ m.B ≠ 0)) (h2 : ¬(m.A ≠ 0 ∧ m.b ≠ 0 ∧ m.C ≠ 0))
    (h3 : ¬(m.B ≠ 0 ∧ m.a ≠ 0 ∧ m.C ≠ 0)) (h4 : ¬(m.C ≠ 0 ∧ m.a ≠ 0 ∧ m.b ≠ 0))
    (h5 : ¬(m.A ≠ 0 ∧ m.c ≠ 0 ∧ m.b ≠ 0)) (h6 : ¬(m.B ≠ 0 ∧ m.a ≠ 0 ∧ m.c ≠ 0)) :
    patternStep m t = .ok t := by
  unfold patternStep
  rw [if_neg h1, if_neg h2, if_neg h3, if_neg h4, if_neg h5, if_neg h6]
  rfl

lemma sidesStep_skip {t : Tri} (h : ¬(t.a ≠ 0 ∧ t.b ≠ 0 ∧ t.c ≠ 0)) :
    sidesStep t = t := by
  unfold sidesStep; rw [if_neg h]

lemma aaaStep_skip {m t : Tri}
    (h : ¬(m.A ≠ 0 ∧ m.B ≠ 0 ∧ m.C ≠ 0 ∧ m.a = 0 ∧ m.b = 0 ∧ m.c = 0)) :
    aaaStep m t = .ok t := by
  unfold aaaStep; rw [if_neg h]; rfl

lemma maxStepA_skip {m u : Tri} (h : ¬(m.a ≠ 0 ∧ m.b ≠ 0 ∧
    ¬(m.a ≠ 0 ∧ m.b ≠ 0 ∧ m.C ≠ 0) ∧ m.A = 0 ∧ m.C = 0 ∧ m.B = 0)) :
    maxStepA m u = .ok u := by
  unfold maxStepA; rw [if_neg h]; rfl

lemma maxStepB_skip {m u : Tri} (h : ¬(m.a ≠ 0 ∧ m.c ≠ 0 ∧
    ¬(m.a ≠ 0 ∧ m.c ≠ 0 ∧ m.B ≠ 0) ∧ m.A = 0 ∧ m.C = 0 ∧ m.B = 0)) :
    maxStepB m u = .ok u := by
  unfold maxStepB; rw [if_neg h]; rfl

lemma maxStepC_skip {m u : Tri} (h : ¬(m.c ≠ 0 ∧ m.b ≠ 0 ∧
    ¬(m.c ≠ 0 ∧ m.b ≠ 0 ∧ m.A ≠ 0) ∧ m.A = 0 ∧ m.C = 0 ∧ m.B = 0)) :
    maxStepC m u = .ok u := by
  unfold maxStepC; rw [if_neg h]; rfl

lemma maxStep_skip_of_angle {t : Tri} (h : t.A ≠ 0 ∨ t.B ≠ 0 ∨ t.C ≠ 0) :
    maxStep t = .ok t := by
  unfold maxStep
  rw [maxStepA_skip (by tauto)]
  show (do let u2 ← maxStepB t t; maxStepC t u2) = Except.ok t
  rw [maxStepB_skip (by tauto)]
  show maxStepC t t = Except.ok t
  exact maxStepC_skip (by tauto)

/-- The all-sides step on a pure side-side-side state recovers the angles of
the valid triangle the sides came from. -/
lemma sidesStep_sss (A a B b C c : ℝ) (ha : 0 < a) (hb : 0 < b) (hc : 0 < c)
    (hA0 : 0 ≤ A) (hAp : A ≤ π) (hB0 : 0 ≤ B) (hBp : B ≤ π)
    (hC0 : 0 ≤ C) (hCp : C ≤ π)
    (lawA : Real.cosh a = Real.cosh b * Real.cosh c -
      Real.sinh b * Real.sinh c * Real.cos A)
    (lawB : Real.cosh b = Real.cosh a * Real.cosh c -
      Real.sinh a * Real.sinh c * Real.cos B)
    (lawC : Real.cosh c = Real.cosh a * Real.cosh b -
      Real.sinh a * Real.sinh b * Real.cos C) :
    sidesStep ⟨0, a, 0, b, 0, c⟩ = ⟨A, a, B, b, C, c⟩ := by
  have hsa : Real.sinh a ≠ 0 := ne_of_gt (Real.sinh_pos_iff.mpr ha)
  have hsb : Real.sinh b ≠ 0 := ne_of_gt (Real.sinh_pos_iff.mpr hb)
  have hsc : Real.sinh c ≠ 0 := ne_of_gt (Real.sinh_pos_iff.mpr hc)
  have e1 : updateByFirstCosineRule 0 b a c = (B, b, a, c) := by
    rw [updateByFirstCosineRule_angle (ne_of_gt hb) rfl]
    have hr : (Real.cosh a * Real.cosh c - Real.cosh b) /
        (Real.sinh a * Real.sinh c) = Real.cos B := by
      rw [lawB]; field_simp
    rw [hr, Real.arccos_cos hB0 hBp]
  have e2 : updateByFirstCosineRule 0 a b c = (A, a, b, c) := by
    rw [updateByFirstCosineRule_angle (ne_of_gt ha) rfl]
    have hr : (Real.cosh b * Real.cosh c - Real.cosh a) /
        (Real.sinh b * Real.sinh c) = Real.cos A := by
      rw [lawA]; field_simp
    rw [hr, Real.arccos_cos hA0 hAp]
  have e3 : updateByFirstCosineRule 0 c b a = (C, c, b, a) := by
    rw [updateByFirstCosineRule_angle (ne_of_gt hc) rfl]
    have hr : (Real.cosh b * Real.cosh a - Real.cosh c) /
        (Real.sinh b * Real.sinh a) = Real.cos C := by
      rw [lawC]; field_simp; ring
    rw [hr, Real.arccos_cos hC0 hCp]
  unfold sidesStep
  rw [if_pos ⟨ne_of_gt ha, ne_of_gt hb, ne_of_gt hc⟩]
  simp only [e1, e2, e3]

/-- Completing from the three sides of a valid triangle returns exactly the
original 6-tuple. -/
lemma completeTriangleE_sss (A a B b C c : ℝ)
    (hval : IsValidTriangle ⟨A, a, B, b, C, c⟩) :
    completeTriangleE ⟨0, a, 0, b, 0, c⟩ = .ok ⟨A, a, B, b, C, c⟩ := by
  obtain ⟨ha, hb, hc, hA, hAp, hB, hBp, hC, hCp, hsum, lawA, lawB, lawC⟩ := hval
  dsimp only at ha hb hc hA hAp hB hBp hC hCp hsum lawA lawB lawC
  have hpi2 : (0 : ℝ) ≠ π / 2 := ne_of_lt (by positivity)
  have hsinA : Real.sin A ≠ 0 :=
    ne_of_gt (Real.sin_pos_of_pos_of_lt_pi hA hAp)
  have hsha : Real.sinh a ≠ 0 := ne_of_gt (Real.sinh_pos_iff.mpr ha)
  have h1 : updateBySineRule 0 a 0 b 0 c = .ok ⟨0, a, 0, b, 0, c⟩ :=
    updateBySineRule_noPair (fun h => h.2 rfl) (fun h => h.2 rfl) (fun h => h.2 rfl)
  have h2 : pythagoreanStep ⟨0, a, 0, b, 0, c⟩ = ⟨0, a, 0, b, 0, c⟩ :=
    pythagoreanStep_noop hpi2 hpi2 hpi2
  have h3 : patternStep ⟨0, a, 0, b, 0, c⟩ ⟨0, a, 0, b, 0, c⟩ = .ok ⟨0, a, 0, b, 0, c⟩ :=
    patternStep_none (fun h => h.1 rfl) (fun h => h.1 rfl) (fun h => h.1 rfl)
      (fun h => h.1 rfl) (fun h => h.1 rfl) (fun h => h.1 rfl)
  have h4 : sidesStep ⟨0, a, 0, b, 0, c⟩ = ⟨A, a, B, b, C, c⟩ :=
    sidesStep_sss A a B b C c ha hb hc hA.le hAp.le hB.le hBp.le hC.le hCp.le
      lawA lawB lawC
  have h5 : updateBySineRule A a B b C c = .ok ⟨A, a, B, b, C, c⟩ :=
    updateBySineRule_allKnown (ne_of_gt hA) (ne_of_gt ha) (ne_of_gt hB)
      (ne_of_gt hb) (ne_of_gt hC) (ne_of_gt hc) hsinA hsha
  have h6 : aaaStep ⟨0, a, 0, b, 0, c⟩ ⟨A, a, B, b, C, c⟩ = .ok ⟨A, a, B, b, C, c⟩ :=
    aaaStep_skip (fun h => h.1 rfl)
  have h7 : maxStep ⟨A, a, B, b, C, c⟩ = .ok ⟨A, a, B, b, C, c⟩ :=
    maxStep_skip_of_angle (Or.inl (ne_of_gt hA))
  simp [completeTriangleE, h1, h2, h3, h4, h5, h6, h7]

/-- Completing from an angle-angle-side subset `(A, B, a)` stalls: the sine
rule fills `b`, but no cosine-rule pattern matches, so the third pair
`(C, c)` is left at zero. -/
lemma completeTriangleE_aas (A a B : ℝ) (hA : A ≠ 0) (ha : a ≠ 0) (hB : B ≠ 0)
    (hA2 : A ≠ π / 2) (hB2 : B ≠ π / 2)
    (hsinA : Real.sin A ≠ 0) (hsha : Real.sinh a ≠ 0)
    (hb : asinh (Real.sin B * Real.sinh a / Real.sin A) ≠ 0) :
    completeTriangleE ⟨A, a, B, 0, 0, 0⟩ =
      .ok ⟨A, a, B, asinh (Real.sin B * Real.sinh a / Real.sin A), 0, 0⟩ := by
  set b2 := asinh (Real.sin B * Real.sinh a / Real.sin A) with hb2
  have hpi2 : (0 : ℝ) ≠ π / 2 := ne_of_lt (by positivity)
  have h1 : updateBySineRule A a B 0 0 0 = .ok ⟨A, a, B, b2, 0, 0⟩ := by
    rw [updateBySineRule_basisA ha hA hsinA hsha, sineFill_side hB rfl,
      sineFill_zeros rfl rfl, sineFill_both hA ha]
    simp [hb2]
  have h2 : pythagoreanStep ⟨A, a, B, b2, 0, 0⟩ = ⟨A, a, B, b2, 0, 0⟩ :=
    pythagoreanStep_noop hA2 hB2 hpi2
  have h3 : patternStep ⟨A, a, B, b2, 0, 0⟩ ⟨A, a, B, b2, 0, 0⟩ =
      .ok ⟨A, a, B, b2, 0, 0⟩ :=
    patternStep_none (fun h => h.2.1 rfl) (fun h => h.2.2 rfl) (fun h => h.2.2 rfl)
      (fun h => h.1 rfl) (fun h => h.2.1 rfl) (fun h => h.2.2 rfl)
  have h4 : sidesStep ⟨A, a, B, b2, 0, 0⟩ = ⟨A, a, B, b2, 0, 0⟩ :=
    sidesStep_skip (fun h => h.2.2 rfl)
  have h5 : updateBySineRule A a B b2 0 0 = .ok ⟨A, a, B, b2, 0, 0⟩ := by
    rw [updateBySineRule_basisA ha hA hsinA hsha, sineFill_both hB hb,
      sineFill_zeros rfl rfl, sineFill_both hA ha]
    rfl
  have h6 : aaaStep ⟨A, a, B, b2, 0, 0⟩ ⟨A, a, B, b2, 0, 0⟩ =
      .ok ⟨A, a, B, b2, 0, 0⟩ :=
    aaaStep_skip (fun h => h.2.2.1 rfl)
  have h7 : maxStep ⟨A, a, B, b2, 0, 0⟩ = .ok ⟨A, a, B, b2, 0, 0⟩ :=
    maxStep_skip_of_angle (Or.inl hA)
  simp [completeTriangleE, h1, h2, h3, h4, h5, h6, h7]

/-- Completing from an angle-side-angle subset `(A, B, c)`: the first
cosine-rule pattern fires and derives the third angle by the second cosine
rule, the sine rule then fills both remaining sides, and the completion
returns a fully populated tuple - with no check that the angle sum is
below π. -/
lemma completeTriangleE_asa (A B c : ℝ) (hA : A ≠ 0) (hB : B ≠ 0) (hc : c ≠ 0)
    (hA2 : A ≠ π / 2) (hB2 : B ≠ π / 2)
    (hguard : -1 < -Real.cos B * Real.cos A + Real.sin B * Real.sin A * Real.cosh c ∧
      -Real.cos B * Real.cos A + Real.sin B * Real.sin A * Real.cosh c < 1)
    (hγ : Real.arccos (-Real.cos B * Real.cos A +
      Real.sin B * Real.sin A * Real.cosh c) ≠ 0)
    (hsinγ : Real.sin (Real.arccos (-Real.cos B * Real.cos A +
      Real.sin B * Real.sin A * Real.cosh c)) ≠ 0)
    (hshc : Real.sinh c ≠ 0) (hsinA : Real.sin A ≠ 0)
    (ha2 : asinh (Real.sin A * Real.sinh c / Real.sin (Real.arccos
      (-Real.cos B * Real.cos A + Real.sin B * Real.sin A * Real.cosh c))) ≠ 0)
    (hb2 : asinh (Real.sin B * Real.sinh c / Real.sin (Real.arccos
      (-Real.cos B * Real.cos A + Real.sin B * Real.sin A * Real.cosh c))) ≠ 0)
    (hsha2 : Real.sinh (asinh (Real.sin A * Real.sinh c / Real.sin (Real.arccos
      (-Real.cos B * Real.cos A + Real.sin B * Real.sin A * Real.cosh c)))) ≠ 0) :
    completeTriangleE ⟨A, 0, B, 0, 0, c⟩ = .ok
      ⟨A, asinh (Real.sin A * Real.sinh c / Real.sin (Real.arccos
          (-Real.cos B * Real.cos A + Real.sin B * Real.sin A * Real.cosh c))),
        B, asinh (Real.sin B * Real.sinh c / Real.sin (Real.arccos
          (-Real.cos B * Real.cos A + Real.sin B * Real.sin A * Real.cosh c))),
        Real.arccos (-Real.cos B * Real.cos A + Real.sin B * Real.sin A * Real.cosh c),
        c⟩ := by
  set γ := Real.arccos (-Real.cos B * Real.cos A +
    Real.sin B * Real.sin A * Real.cosh c) with hγdef
  set a2 := asinh (Real.sin A * Real.sinh c / Real.sin γ) with ha2def
  set b2 := asinh (Real.sin B * Real.sinh c / Real.sin γ) with hb2def
  have hpi2 : (0 : ℝ) ≠ π / 2 := ne_of_lt (by positivity)
  have h1 : updateBySineRule A 0 B 0 0 c = .ok ⟨A, 0, B, 0, 0, c⟩ :=
    updateBySineRule_noPair (fun h => h.1 rfl) (fun h => h.1 rfl) (fun h => h.2 rfl)
  have h2 : pythagoreanStep ⟨A, 0, B, 0, 0, c⟩ = ⟨A, 0, B, 0, 0, c⟩ :=
    pythagoreanStep_noop hA2 hB2 hpi2
  have hscr : updateBySecondCosineRule c 0 B A = .ok (c, γ, B, A) := by
    rw [updateBySecondCosineRule_angle hc rfl hguard]
  have h3 : patternStep ⟨A, 0, B, 0, 0, c⟩ ⟨A, 0, B, 0, 0, c⟩ =
      .ok ⟨A, 0, B, 0, γ, c⟩ := by
    unfold patternStep
    rw [if_pos ⟨hA, hc, hB⟩]
    simp [hscr]
  have h4 : sidesStep ⟨A, 0, B, 0, γ, c⟩ = ⟨A, 0, B, 0, γ, c⟩ :=
    sidesStep_skip (fun h => h.1 rfl)
  have h5 : updateBySineRule A 0 B 0 γ c = .ok ⟨A, a2, B, b2, γ, c⟩ := by
    rw [updateBySineRule_basisC (fun h => h.1 rfl) (fun h => h.1 rfl) hc hγ hsinγ hshc,
      sineFill_side hB rfl, sineFill_both hγ hc, sineFill_side hA rfl]
    simp [ha2def, hb2def]
  have h6 : aaaStep ⟨A, 0, B, 0, γ, c⟩ ⟨A, a2, B, b2, γ, c⟩ =
      .ok ⟨A, a2, B, b2, γ, c⟩ :=
    aaaStep_skip (fun h => hc h.2.2.2.2.2)
  have h7 : maxStep ⟨A, a2, B, b2, γ, c⟩ = .ok ⟨A, a2, B, b2, γ, c⟩ :=
    maxStep_skip_of_angle (Or.inl hA)
  have h8 : updateBySineRule A a2 B b2 γ c = .ok ⟨A, a2, B, b2, γ, c⟩ :=
    updateBySineRule_allKnown hA ha2 hB hb2 hγ hc hsinA hsha2
  simp [completeTriangleE, h1, h2, h3, h4, h5, h6, h7, h8]

/-- A sine-rule domain-guard violation on the very first pass aborts the
whole completion with the invalid-triangle error. -/
lemma completeTriangleE_sineGuard (A a b : ℝ) (hA : A ≠ 0) (ha : a ≠ 0)
    (hsinA : Real.sin A ≠ 0) (hsha : Real.sinh a ≠ 0) (hb : b ≠ 0)
    (hguard : ¬(-1 < Real.sinh b * Real.sin A / Real.sinh a ∧
      Real.sinh b * Real.sin A / Real.sinh a < 1)) :
    completeTriangleE ⟨A, a, 0, b, 0, 0⟩ = .error .invalidTriangle := by
  have h1 : updateBySineRule A a 0 b 0 0 = .error .invalidTriangle := by
    rw [updateBySineRule_basisA ha hA hsinA hsha, sineFill_guardFail hb rfl hguard]
    rfl
  simp [completeTriangleE, h1]

lemma aas_fill_one : asinh (Real.sin eqAngle * Real.sinh 1 / Real.sin eqAngle) = 1 := by
  have hs : Real.sin eqAngle ≠ 0 := ne_of_gt sin_eqAngle_pos
  rw [show Real.sin eqAngle * Real.sinh 1 / Real.sin eqAngle = Real.sinh 1 by
    field_simp]
  exact asinh_sinh 1

/-- On the equilateral triangle's angle-angle-side subset the completion
stalls with the third pair still unknown. -/
lemma eq_aas_run : completeTriangleE ⟨eqAngle, 1, eqAngle, 0, 0, 0⟩ =
    .ok ⟨eqAngle, 1, eqAngle, 1, 0, 0⟩ := by
  have h := completeTriangleE_aas eqAngle 1 eqAngle (ne_of_gt eqAngle_pos)
    one_ne_zero (ne_of_gt eqAngle_pos) eqAngle_ne_half_pi eqAngle_ne_half_pi
    (ne_of_gt sin_eqAngle_pos) (ne_of_gt sinh_one_pos)
    (by rw [aas_fill_one]; exact one_ne_zero)
  rwa [aas_fill_one] at h

/-! ### Facts about the inconsistent angle-side-angle ghost input -/

lemma vGhost_eq : vGhost = 3 / 4 * Real.cosh (1 / 2) - 1 / 4 := by
  unfold vGhost
  rw [cos_two_pi_div_three, sin_two_pi_div_three]
  have h3 : Real.sqrt 3 ^ 2 = 3 := Real.sq_sqrt (by norm_num)
  linear_combination Real.cosh (1 / 2) / 4 * h3

lemma vGhost_guard : -1 < vGhost ∧ vGhost < 1 := by
  rw [vGhost_eq]
  constructor
  · nlinarith [Real.cosh_pos (x := (1 / 2 : ℝ))]
  · nlinarith [cosh_half_lt]

lemma gammaGhost_pos : 0 < gammaGhost := Real.arccos_pos.mpr vGhost_guard.2

lemma gammaGhost_lt_pi : gammaGhost < π := by
  refine lt_of_le_of_ne (Real.arccos_le_pi _) (fun h => ?_)
  rw [gammaGhost, Real.arccos_eq_pi] at h
  linarith [vGhost_guard.1]

lemma sin_gammaGhost_pos : 0 < Real.sin gammaGhost :=
  Real.sin_pos_of_pos_of_lt_pi gammaGhost_pos gammaGhost_lt_pi

lemma sin_gammaGhost_le_one : Real.sin gammaGhost ≤ 1 := Real.sin_le_one _

lemma sin_two_pi_div_three_pos : 0 < Real.sin (2 * π / 3) :=
  Real.sin_pos_of_pos_of_lt_pi (by positivity) (by nlinarith [Real.pi_pos])

lemma sGhost_pos : 0 < sGhost := by
  unfold sGhost
  exact asinh_pos
    (div_pos (mul_pos sin_two_pi_div_three_pos sinh_half_pos) sin_gammaGhost_pos)

lemma sGhost_gt_quarter : 1 / 4 < sGhost := by
  have hu : Real.sinh (1 / 4) <
      Real.sin (2 * π / 3) * Real.sinh (1 / 2) / Real.sin gammaGhost := by
    have hn : 0 < Real.sin (2 * π / 3) * Real.sinh (1 / 2) :=
      mul_pos sin_two_pi_div_three_pos sinh_half_pos
    have hnum : Real.sin (2 * π / 3) * Real.sinh (1 / 2) ≤
        Real.sin (2 * π / 3) * Real.sinh (1 / 2) / Real.sin gammaGhost := by
      rw [le_div_iff₀ sin_gammaGhost_pos]
      nlinarith [hn, sin_gammaGhost_le_one]
    have hlow : Real.sinh (1 / 4) < Real.sin (2 * π / 3) * Real.sinh (1 / 2) := by
      rw [sin_two_pi_div_three]
      nlinarith [sqrt_three_gt, half_lt_sinh_half, sinh_half_pos, sinh_quarter_lt]
    linarith
  have := Real.arsinh_lt_arsinh.mpr hu
  rw [Real.arsinh_sinh] at this
  rwa [sGhost, asinh_eq_arsinh]

lemma two_pi_div_three_ne_zero : (2 * π / 3 : ℝ) ≠ 0 := by
  have := Real.pi_pos; positivity

lemma two_pi_div_three_ne_half_pi : (2 * π / 3 : ℝ) ≠ π / 2 := by
  intro h
  have := Real.pi_pos
  linarith

/-- The completion of the inconsistent angle-side-angle input
`(2π/3, 0, 2π/3, 0, 0, 1/2)` succeeds and returns `ghostTri`. -/
lemma ghost_run : completeTriangleE ⟨2 * π / 3, 0, 2 * π / 3, 0, 0, 1 / 2⟩ =
    .ok ghostTri := by
  have h := completeTriangleE_asa (2 * π / 3) (2 * π / 3) (1 / 2)
    two_pi_div_three_ne_zero two_pi_div_three_ne_zero (by norm_num)
    two_pi_div_three_ne_half_pi two_pi_div_three_ne_half_pi
    vGhost_guard (ne_of_gt gammaGhost_pos) (ne_of_gt sin_gammaGhost_pos)
    (ne_of_gt sinh_half_pos) (ne_of_gt sin_two_pi_div_three_pos)
    (ne_of_gt sGhost_pos) (ne_of_gt sGhost_pos)
    (ne_of_gt (Real.sinh_pos_iff.mpr sGhost_pos))
  exact h

lemma sqrt_two_gt : (1.4 : ℝ) < Real.sqrt 2 :=
  (Real.lt_sqrt (by norm_num)).mpr (by norm_num)

lemma eqAngle_gt_tol : (1 / 1000000000 : ℝ) < eqAngle := by
  have h1 : Real.cos eqAngle < Real.cos (π / 4) := by
    rw [cos_eqAngle, Real.cos_pi_div_four]
    have hc := cosh_one_lt
    have hc1 := one_lt_cosh_one
    have h2 : Real.cosh 1 / (Real.cosh 1 + 1) < 0.7 := by
      rw [div_lt_iff₀ (by linarith)]; linarith
    nlinarith [sqrt_two_gt]
  have h2 : π / 4 < eqAngle := by
    by_contra h
    push_neg at h
    have h3 := Real.cos_le_cos_of_nonneg_of_le_pi (le_of_lt eqAngle_pos)
      (by linarith [Real.pi_pos] : (π / 4 : ℝ) ≤ π) h
    linarith
  have := Real.pi_gt_three
  linarith

/-- Claim C1 (amended): completion from a consistent side-side-side subset of
a valid hyperbolic triangle reproduces exactly the original 6-tuple; but the
completed result does depend on which consistent subset was supplied, because
an angle-angle-side subset (A, B, a) is left incomplete
(see the counterexample). -/
theorem claim_C1_sss_completion (t : Tri) (h : IsValidTriangle t) :
    completeTriangle ⟨0, t.a, 0, t.b, 0, t.c⟩ = some t := by
  have he : completeTriangleE ⟨0, t.a, 0, t.b, 0, t.c⟩ = .ok t :=
    completeTriangleE_sss t.A t.a t.B t.b t.C t.c h
  rw [completeTriangle, he]
  rfl

/-- Claim C1 witness: the unit equilateral triangle completed from its sides. -/
theorem claim_C1_witness : completeTriangle ⟨0, 1, 0, 1, 0, 1⟩ = some eqTri :=
  claim_C1_sss_completion eqTri eqTri_valid

/-- Claim C1 counterexample: for the valid unit equilateral triangle, the
consistent angle-angle-side subset `(A, B, a)` completes to a tuple whose
`C` and `c` slots are still zero, while the side-side-side subset completes
to the full triangle; the two results differ in slot `C` by more than
the 1e-9 tolerance. -/
theorem claim_C1_counterexample :
    IsValidTriangle eqTri ∧
    completeTriangle ⟨eqTri.A, eqTri.a, eqTri.B, 0, 0, 0⟩ =
      some ⟨eqAngle, 1, eqAngle, 1, 0, 0⟩ ∧
    completeTriangle ⟨0, eqTri.a, 0, eqTri.b, 0, eqTri.c⟩ = some eqTri ∧
    1 / 1000000000 < |eqTri.C - (0 : ℝ)| := by
  refine ⟨eqTri_valid, ?_, ?_, ?_⟩
  · show completeTriangle ⟨eqAngle, 1, eqAngle, 0, 0, 0⟩ = _
    rw [completeTriangle, eq_aas_run]
    rfl
  · have he : completeTriangleE ⟨0, 1, 0, 1, 0, 1⟩ = .ok eqTri :=
      completeTriangleE_sss eqAngle 1 eqAngle 1 eqAngle 1 eqTri_valid
    show completeTriangle ⟨0, 1, 0, 1, 0, 1⟩ = some eqTri
    rw [completeTriangle, he]
    rfl
  · show 1 / 1000000000 < |eqAngle - (0 : ℝ)|
    rw [sub_zero, abs_of_pos eqAngle_pos]
    exact eqAngle_gt_tol

/-- Claim C4 (amended): for inputs drawn from a valid hyperbolic triangle
(its three sides), completion succeeds with all six slots populated and the
completed angles satisfy `A + B + C < π`; the bound is not enforced for
arbitrary successfully-completing inputs (see the counterexample). -/
theorem claim_C4_defect (t : Tri) (h : IsValidTriangle t) :
    ∃ u, completeTriangle ⟨0, t.a, 0, t.b, 0, t.c⟩ = some u ∧
      u.A ≠ 0 ∧ u.a ≠ 0 ∧ u.B ≠ 0 ∧ u.b ≠ 0 ∧ u.C ≠ 0 ∧ u.c ≠ 0 ∧
      u.A + u.B + u.C < π := by
  obtain ⟨ha, hb, hc, hA, hAp, hB, hBp, hC, hCp, hsum, -, -, -⟩ := id h
  refine ⟨t, ?_, ne_of_gt hA, ne_of_gt ha, ne_of_gt hB, ne_of_gt hb,
    ne_of_gt hC, ne_of_gt hc, hsum⟩
  have he : completeTriangleE ⟨0, t.a, 0, t.b, 0, t.c⟩ = .ok t :=
    completeTriangleE_sss t.A t.a t.B t.b t.C t.c h
  rw [completeTriangle, he]
  rfl

/-- Claim C4 witness: the unit equilateral triangle. -/
theorem claim_C4_witness :
    ∃ u, completeTriangle ⟨0, 1, 0, 1, 0, 1⟩ = some u ∧
      u.A ≠ 0 ∧ u.a ≠ 0 ∧ u.B ≠ 0 ∧ u.b ≠ 0 ∧ u.C ≠ 0 ∧ u.c ≠ 0 ∧
      u.A + u.B + u.C < π :=
  claim_C4_defect eqTri eqTri_valid

/-- Claim C4 counterexample: the inconsistent angle-side-angle input
`(A, B, c) = (2π/3, 2π/3, 1/2)` completes successfully with all six slots
populated, yet the completed angle sum exceeds π. -/
theorem claim_C4_counterexample :
    completeTriangle ⟨2 * π / 3, 0, 2 * π / 3, 0, 0, 1 / 2⟩ = some ghostTri ∧
    ghostTri.A ≠ 0 ∧ ghostTri.a ≠ 0 ∧ ghostTri.B ≠ 0 ∧ ghostTri.b ≠ 0 ∧
    ghostTri.C ≠ 0 ∧ ghostTri.c ≠ 0 ∧
    π < ghostTri.A + ghostTri.B + ghostTri.C := by
  refine ⟨?_, two_pi_div_three_ne_zero, ne_of_gt sGhost_pos,
    two_pi_div_three_ne_zero, ne_of_gt sGhost_pos,
    ne_of_gt gammaGhost_pos, by show (1 / 2 : ℝ) ≠ 0; norm_num, ?_⟩
  · rw [completeTriangle, ghost_run]
    rfl
  · show π < 2 * π / 3 + (2 * π / 3) + gammaGhost
    have := gammaGhost_pos
    have := Real.pi_pos
    linarith

lemma two_sinh_one_le_sinh {b : ℝ} (hb : 2 ≤ b) :
    2 * Real.sinh 1 ≤ Real.sinh b := by
  have h3 := Real.sinh_two_mul (1 : ℝ)
  norm_num at h3
  have h4 : Real.sinh 2 ≤ Real.sinh b := Real.sinh_le_sinh.mpr hb
  nlinarith [one_lt_cosh_one, sinh_one_pos]

lemma sineGuard_fails_of_big {b : ℝ} (hb : 2 ≤ b) :
    ¬(-1 < Real.sinh b * Real.sin (π / 6) / Real.sinh 1 ∧
      Real.sinh b * Real.sin (π / 6) / Real.sinh 1 < 1) := by
  rw [Real.sin_pi_div_six]
  rintro ⟨-, hlt⟩
  rw [div_lt_iff₀ sinh_one_pos] at hlt
  have := two_sinh_one_le_sinh hb
  linarith

lemma sin_pi_div_six_ne : Real.sin (π / 6) ≠ 0 := by
  rw [Real.sin_pi_div_six]; norm_num

lemma pi_div_six_ne : (π / 6 : ℝ) ≠ 0 := by
  have := Real.pi_pos; positivity

/-- Claim C2 (amended): a sine-rule domain-guard violation aborts the
completion with the invalid-triangle error internally, but completeTriangle
catches it and returns undefined (none) to its caller - the error does not
propagate. -/
theorem claim_C2_guard_swallowed (A a b : ℝ) (hA : A ≠ 0) (ha : a ≠ 0)
    (hsinA : Real.sin A ≠ 0) (hsha : Real.sinh a ≠ 0) (hb : b ≠ 0)
    (hguard : ¬(-1 < Real.sinh b * Real.sin A / Real.sinh a ∧
      Real.sinh b * Real.sin A / Real.sinh a < 1)) :
    completeTriangleE ⟨A, a, 0, b, 0, 0⟩ = .error .invalidTriangle ∧
    completeTriangle ⟨A, a, 0, b, 0, 0⟩ = none := by
  have he := completeTriangleE_sineGuard A a b hA ha hsinA hsha hb hguard
  exact ⟨he, by rw [completeTriangle, he]; rfl⟩

/-- Claim C2 witness: the input `(A, a, b) = (π/6, 1, 3)` trips the
sine-rule guard. -/
theorem claim_C2_witness :
    completeTriangleE ⟨π / 6, 1, 0, 3, 0, 0⟩ = .error .invalidTriangle ∧
    completeTriangle ⟨π / 6, 1, 0, 3, 0, 0⟩ = none :=
  claim_C2_guard_swallowed (π / 6) 1 3 pi_div_six_ne one_ne_zero
    sin_pi_div_six_ne (ne_of_gt sinh_one_pos) (by norm_num)
    (sineGuard_fails_of_big (by norm_num))

/-- Claim C2 counterexample: for the guard-violating input
`(π/6, 1, 0, 4, 0, 0)` the solver throws internally, but the value
completeTriangle hands its caller is none (undefined), not an error - the
InvalidTriangle error is swallowed, contradicting the claim that it
propagates to completeTriangle's caller. -/
theorem claim_C2_counterexample :
    completeTriangleE ⟨π / 6, 1, 0, 4, 0, 0⟩ = .error .invalidTriangle ∧
    completeTriangle ⟨π / 6, 1, 0, 4, 0, 0⟩ = none := by
  have he := completeTriangleE_sineGuard (π / 6) 1 4 pi_div_six_ne one_ne_zero
    sin_pi_div_six_ne (ne_of_gt sinh_one_pos) (by norm_num)
    (sineGuard_fails_of_big (by norm_num))
  exact ⟨he, by rw [completeTriangle, he]; rfl⟩

/-! ### Caller-level lemmas for handleTriangleDrawing -/

lemma deg0_eq : degrees2Radians 0 = 0 := by
  unfold degrees2Radians; ring

lemma deg30_eq : degrees2Radians 30 = π / 6 := by
  unfold degrees2Radians; ring

lemma deg45_eq : degrees2Radians 45 = π / 4 := by
  unfold degrees2Radians; ring

lemma deg60_eq : degrees2Radians 60 = π / 3 := by
  unfold degrees2Radians; ring

lemma deg120_eq : degrees2Radians 120 = 2 * π / 3 := by
  unfold degrees2Radians; ring

/-- The stuck-configuration check of the core body fires whenever completion
returns a two-pairs-known / third-pair-unknown tuple. -/
lemma core_stuck_insufficient (d : Drawler) (A a B b C c One : ℝ) (t : Tri)
    (hn : 2 ≤ countKnown A B C a b c) (hn3 : countKnown A B C a b c ≤ 3)
    (hs : ¬((c ≥ a + b ∨ a ≥ c + b ∨ b ≥ a + c) ∧ a ≠ 0 ∧ b ≠ 0 ∧ c ≠ 0))
    (hp : ¬((A = π ∨ B = π ∨ C = π) ∧ A ≠ 0 ∧ B ≠ 0 ∧ C ≠ 0))
    (hsum : ¬(A + B + C ≥ π ∧ A ≠ 0 ∧ B ≠ 0 ∧ C ≠ 0))
    (hneg : ¬(A < 0 ∨ B < 0 ∨ C < 0))
    (hcomp : completeTriangle ⟨A, a, B, b, C, c⟩ = some t)
    (hshape : (t.A ≠ 0 ∧ t.B ≠ 0 ∧ t.C = 0 ∧ t.a ≠ 0 ∧ t.b ≠ 0 ∧ t.c = 0) ∨
      (t.A ≠ 0 ∧ t.C ≠ 0 ∧ t.B = 0 ∧ t.a ≠ 0 ∧ t.b = 0 ∧ t.c ≠ 0) ∨
      (t.A = 0 ∧ t.B ≠ 0 ∧ t.C ≠ 0 ∧ t.a = 0 ∧ t.b ≠ 0 ∧ t.c ≠ 0)) :
    handleTriangleDrawingCore d A a B b C c One = .error .insufficientData := by
  unfold handleTriangleDrawingCore
  rw [if_neg (by omega : ¬(countKnown A B C a b c < 2 ∨ countKnown A B C a b c > 3)),
    if_neg hs, if_neg hp, if_neg hsum, if_neg hneg, hcomp]
  dsimp only
  rw [if_pos hshape]

/-- The pre-validation of the core body rejects with the invalid-triangle
error whenever all three angles are known and one equals π or their sum
reaches π, or any angle is negative. -/
lemma core_angle_invalid (d : Drawler) (A a B b C c One : ℝ)
    (hn : 2 ≤ countKnown A B C a b c) (hn3 : countKnown A B C a b c ≤ 3)
    (h : ((A = π ∨ B = π ∨ C = π) ∧ A ≠ 0 ∧ B ≠ 0 ∧ C ≠ 0) ∨
      (A + B + C ≥ π ∧ A ≠ 0 ∧ B ≠ 0 ∧ C ≠ 0) ∨ (A < 0 ∨ B < 0 ∨ C < 0)) :
    handleTriangleDrawingCore d A a B b C c One = .error .invalidTriangle := by
  unfold handleTriangleDrawingCore
  rw [if_neg (by omega : ¬(countKnown A B C a b c < 2 ∨ countKnown A B C a b c > 3))]
  by_cases hs : (c ≥ a + b ∨ a ≥ c + b ∨ b ≥ a + c) ∧ a ≠ 0 ∧ b ≠ 0 ∧ c ≠ 0
  · rw [if_pos hs]
  · rw [if_neg hs]
    by_cases hp : (A = π ∨ B = π ∨ C = π) ∧ A ≠ 0 ∧ B ≠ 0 ∧ C ≠ 0
    · rw [if_pos hp]
    · rw [if_neg hp]
      by_cases hq : A + B + C ≥ π ∧ A ≠ 0 ∧ B ≠ 0 ∧ C ≠ 0
      · rw [if_pos hq]
      · rw [if_neg hq]
        rw [if_pos (show A < 0 ∨ B < 0 ∨ C < 0 by tauto)]

/-- Claim C3: if, after completion, exactly two angles and their two opposite
sides are known while the third angle and its opposite side remain zero,
handleTriangleDrawing fails with the insufficient-data error before any
triangle draw call is issued (the error return carries no draws). -/
theorem claim_C3_stuck_insufficient (d : Drawler) (A0 a B0 b C0 c One0 : ℝ)
    (t : Tri)
    (hn : 2 ≤ countKnown (degrees2Radians A0) (degrees2Radians B0)
      (degrees2Radians C0) a b c)
    (hn3 : countKnown (degrees2Radians A0) (degrees2Radians B0)
      (degrees2Radians C0) a b c ≤ 3)
    (hs : ¬((c ≥ a + b ∨ a ≥ c + b ∨ b ≥ a + c) ∧ a ≠ 0 ∧ b ≠ 0 ∧ c ≠ 0))
    (hp : ¬((degrees2Radians A0 = π ∨ degrees2Radians B0 = π ∨
      degrees2Radians C0 = π) ∧ degrees2Radians A0 ≠ 0 ∧
      degrees2Radians B0 ≠ 0 ∧ degrees2Radians C0 ≠ 0))
    (hsum : ¬(degrees2Radians A0 + degrees2Radians B0 + degrees2Radians C0 ≥ π ∧
      degrees2Radians A0 ≠ 0 ∧ degrees2Radians B0 ≠ 0 ∧ degrees2Radians C0 ≠ 0))
    (hneg : ¬(degrees2Radians A0 < 0 ∨ degrees2Radians B0 < 0 ∨
      degrees2Radians C0 < 0))
    (hcomp : completeTriangle ⟨degrees2Radians A0, a, degrees2Radians B0, b,
      degrees2Radians C0, c⟩ = some t)
    (hshape : (t.A ≠ 0 ∧ t.B ≠ 0 ∧ t.C = 0 ∧ t.a ≠ 0 ∧ t.b ≠ 0 ∧ t.c = 0) ∨
      (t.A ≠ 0 ∧ t.C ≠ 0 ∧ t.B = 0 ∧ t.a ≠ 0 ∧ t.b = 0 ∧ t.c ≠ 0) ∨
      (t.A = 0 ∧ t.B ≠ 0 ∧ t.C ≠ 0 ∧ t.a = 0 ∧ t.b ≠ 0 ∧ t.c ≠ 0)) :
    handleTriangleDrawing d A0 a B0 b C0 c One0 = .error .insufficientData :=
  core_stuck_insufficient d _ a _ b _ c _ t hn hn3 hs hp hsum hneg hcomp hshape

lemma aas_fill_self {A : ℝ} (h : Real.sin A ≠ 0) :
    asinh (Real.sin A * Real.sinh 1 / Real.sin A) = 1 := by
  rw [show Real.sin A * Real.sinh 1 / Real.sin A = Real.sinh 1 by field_simp]
  exact asinh_sinh 1

/-- Claim C3 witness: the input `(45°, 1, 45°, 0, 0, 0)` completes to the
stuck configuration (A, B, a, b known; C, c zero) and is rejected with the
insufficient-data error. -/
theorem claim_C3_witness :
    handleTriangleDrawing ⟨0, 0, 1⟩ 45 1 45 0 0 0 0 = .error .insufficientData := by
  have hpi4 : (π / 4 : ℝ) ≠ 0 := by have := Real.pi_pos; positivity
  have hsin4 : Real.sin (π / 4) ≠ 0 := by
    rw [Real.sin_pi_div_four]
    have h2 : (0 : ℝ) < Real.sqrt 2 := Real.sqrt_pos.mpr (by norm_num)
    positivity
  have hpi42 : (π / 4 : ℝ) ≠ π / 2 := by
    have := Real.pi_pos; intro h; linarith
  have hcnt : countKnown (π / 4) (π / 4) 0 1 0 0 = 3 := by
    unfold countKnown indK
    rw [if_pos hpi4, if_neg (show ¬(0 : ℝ) ≠ 0 from fun h => h rfl),
      if_pos one_ne_zero]
  have hrun : completeTriangleE ⟨π / 4, 1, π / 4, 0, 0, 0⟩ =
      .ok ⟨π / 4, 1, π / 4, 1, 0, 0⟩ := by
    have h := completeTriangleE_aas (π / 4) 1 (π / 4) hpi4 one_ne_zero hpi4
      hpi42 hpi42 hsin4 (ne_of_gt sinh_one_pos)
      (by rw [aas_fill_self hsin4]; exact one_ne_zero)
    rwa [aas_fill_self hsin4] at h
  refine claim_C3_stuck_insufficient ⟨0, 0, 1⟩ 45 1 45 0 0 0 0
    ⟨π / 4, 1, π / 4, 1, 0, 0⟩ ?_ ?_ ?_ ?_ ?_ ?_ ?_ ?_
  · rw [deg45_eq, deg0_eq, hcnt]; omega
  · rw [deg45_eq, deg0_eq, hcnt]
  · exact fun h => h.2.2.1 rfl
  · exact fun h => h.2.2.2 deg0_eq
  · exact fun h => h.2.2.2 deg0_eq
  · rw [deg45_eq, deg0_eq]
    rintro (h | h | h) <;> linarith [Real.pi_pos]
  · rw [deg45_eq, deg0_eq]
    rw [completeTriangle, hrun]
    rfl
  · exact Or.inl ⟨hpi4, hpi4, rfl, one_ne_zero, one_ne_zero, rfl⟩

/-- Claim C5 (amended): the equal-to-π and angle-sum pre-checks of
handleTriangleDrawing fire only when all three angles are known; the
negative-angle check applies to any input.  Whenever the input passes the
count check and all three angles are known with one equal to π or with sum
at least π, or any angle is negative, the call fails with the
invalid-triangle error before completion; an input whose known angles sum
to at least π with fewer than three known angles is not pre-rejected
(see the counterexample). -/
theorem claim_C5_prevalidation (d : Drawler) (A0 a B0 b C0 c One0 : ℝ)
    (hn : 2 ≤ countKnown (degrees2Radians A0) (degrees2Radians B0)
      (degrees2Radians C0) a b c)
    (hn3 : countKnown (degrees2Radians A0) (degrees2Radians B0)
      (degrees2Radians C0) a b c ≤ 3)
    (h : ((degrees2Radians A0 = π ∨ degrees2Radians B0 = π ∨
        degrees2Radians C0 = π) ∧ degrees2Radians A0 ≠ 0 ∧
        degrees2Radians B0 ≠ 0 ∧ degrees2Radians C0 ≠ 0) ∨
      (degrees2Radians A0 + degrees2Radians B0 + degrees2Radians C0 ≥ π ∧
        degrees2Radians A0 ≠ 0 ∧ degrees2Radians B0 ≠ 0 ∧
        degrees2Radians C0 ≠ 0) ∨
      (degrees2Radians A0 < 0 ∨ degrees2Radians B0 < 0 ∨
        degrees2Radians C0 < 0)) :
    handleTriangleDrawing d A0 a B0 b C0 c One0 = .error .invalidTriangle :=
  core_angle_invalid d _ a _ b _ c _ hn hn3 h

/-- Claim C5 witness: `(30°, 60°, 90°)` - three known angles whose radian
sum is exactly π - is rejected with the invalid-triangle error. -/
theorem claim_C5_witness :
    handleTriangleDrawing ⟨0, 0, 1⟩ 30 0 60 0 90 0 0 = .error .invalidTriangle := by
  have hp := Real.pi_pos
  have h6 : (π / 6 : ℝ) ≠ 0 := by positivity
  have h3 : (π / 3 : ℝ) ≠ 0 := by positivity
  have h2 : (π / 2 : ℝ) ≠ 0 := by positivity
  have hcnt : countKnown (π / 6) (π / 3) (π / 2) 0 0 0 = 3 := by
    unfold countKnown indK
    rw [if_pos h6, if_pos h3, if_pos h2,
      if_neg (show ¬(0 : ℝ) ≠ 0 from fun h => h rfl)]
  refine claim_C5_prevalidation ⟨0, 0, 1⟩ 30 0 60 0 90 0 0 ?_ ?_ ?_
  · rw [deg30_eq, deg60_eq, deg90_eq, hcnt]; omega
  · rw [deg30_eq, deg60_eq, deg90_eq, hcnt]
  · rw [deg30_eq, deg60_eq, deg90_eq]
    refine Or.inr (Or.inl ⟨?_, h6, h3, h2⟩)
    have : π / 6 + π / 3 + π / 2 = π := by ring
    linarith

/-- Claim C5 counterexample: the input `(120°, 0, 120°, 0, 0, 1/2)` has known
angles summing to 4π/3 ≥ π, yet handleTriangleDrawing does not reject it -
the angle-sum pre-check is skipped because the third angle is unknown, and
the call completes and draws. -/
theorem claim_C5_counterexample :
    π ≤ degrees2Radians 120 + degrees2Radians 120 ∧
    handleTriangleDrawing ⟨0, 0, 1⟩ 120 0 120 0 0 (1 / 2) 0 =
      .ok (createTrangle ⟨0, 0, 1⟩ ghostTri (degrees2Radians 0 + π / 2)) := by
  have hp := Real.pi_pos
  constructor
  · rw [deg120_eq]; linarith
  · unfold handleTriangleDrawing
    rw [deg120_eq, deg0_eq]
    unfold handleTriangleDrawingCore
    have h23 := two_pi_div_three_ne_zero
    have hcnt : countKnown (2 * π / 3) (2 * π / 3) 0 0 0 (1 / 2) = 3 := by
      unfold countKnown indK
      rw [if_pos h23, if_neg (show ¬(0 : ℝ) ≠ 0 from fun h => h rfl),
        if_pos (by norm_num : (1 / 2 : ℝ) ≠ 0)]
    rw [if_neg (by rw [hcnt]; omega)]
    rw [if_neg (fun h => h.2.1 rfl)]
    rw [if_neg (fun h => h.2.2.2 rfl)]
    rw [if_neg (fun h => h.2.2.2 rfl)]
    rw [if_neg (by rintro (h | h | h) <;> linarith)]
    have hcomp : completeTriangle ⟨2 * π / 3, 0, 2 * π / 3, 0, 0, 1 / 2⟩ =
        some ghostTri := by
      rw [completeTriangle, ghost_run]; rfl
    rw [hcomp]
    dsimp only
    rw [if_neg ?hshape]
    rw [if_neg ?hineq]
    case hshape =>
      rintro (⟨-, -, h, -⟩ | ⟨-, -, h, -⟩ | ⟨h, -⟩)
      · exact absurd h (ne_of_gt gammaGhost_pos)
      · exact absurd h h23
      · exact absurd h h23
    case hineq =>
      have hq := sGhost_gt_quarter
      rintro (h | h | h)
      · have hr : (1 / 2 : ℝ) ≥ sGhost + sGhost := h
        linarith
      · have hr : sGhost ≥ 1 / 2 + sGhost := h
        linarith
      · have hr : sGhost ≥ sGhost + 1 / 2 := h
        linarith

/-! ### The Poincaré/gyrovector radius conversion -/

lemma tanh_eq_exp_form (y : ℝ) :
    Real.tanh y = (Real.exp (2 * y) - 1) / (Real.exp (2 * y) + 1) := by
  rw [Real.tanh_eq_sinh_div_cosh, Real.sinh_eq, Real.cosh_eq]
  have h2 : Real.exp (2 * y) = Real.exp y * Real.exp y := by
    rw [two_mul, Real.exp_add]
  rw [h2, Real.exp_neg]
  have he : Real.exp y ≠ 0 := Real.exp_ne_zero y
  have hd : Real.exp y * Real.exp y + 1 > 0 := by positivity
  field_simp

/-- Claim C8: converting a Poincaré radius `r ∈ (0,1)` to the gyrovector
radius `log((1+r)/(1-r))` and back through `tanh(rg/2)` returns exactly the
original `r` (hence certainly within the 1e-9 tolerance). -/
theorem claim_C8_roundtrip (r : ℝ) (h0 : 0 < r) (h1 : r < 1) :
    (calculatePoincareAndGyrovectorRadius 0
      ((calculatePoincareAndGyrovectorRadius r 0).2)).1 = r := by
  have hq1 : (1 : ℝ) < (1 + r) / (1 - r) := by
    rw [lt_div_iff₀ (by linarith)]
    linarith
  have hL : 0 < Real.log ((1 + r) / (1 - r)) := Real.log_pos hq1
  have e1 : calculatePoincareAndGyrovectorRadius r 0 =
      (r, Real.log ((1 + r) / (1 - r))) := by
    unfold calculatePoincareAndGyrovectorRadius
    rw [if_pos ⟨ne_of_gt h0, rfl⟩]
  rw [e1]
  have e2 : calculatePoincareAndGyrovectorRadius 0 (Real.log ((1 + r) / (1 - r))) =
      (Real.tanh (Real.log ((1 + r) / (1 - r)) / 2),
        Real.log ((1 + r) / (1 - r))) := by
    unfold calculatePoincareAndGyrovectorRadius
    rw [if_neg (fun h => h.1 rfl), if_pos ⟨ne_of_gt hL, rfl⟩]
  rw [e2]
  show Real.tanh (Real.log ((1 + r) / (1 - r)) / 2) = r
  rw [tanh_eq_exp_form]
  have harg : 2 * (Real.log ((1 + r) / (1 - r)) / 2) =
      Real.log ((1 + r) / (1 - r)) := by ring
  rw [harg, Real.exp_log (by linarith : (0 : ℝ) < (1 + r) / (1 - r))]
  have hr1 : (1 : ℝ) - r ≠ 0 := by linarith
  have hden : (1 + r) / (1 - r) + 1 ≠ 0 := by
    have : (0 : ℝ) < (1 + r) / (1 - r) := by linarith
    linarith
  field_simp
  ring

/-- Claim C8 witness: round-trip at `r = 1/2`. -/
theorem claim_C8_witness :
    (calculatePoincareAndGyrovectorRadius 0
      ((calculatePoincareAndGyrovectorRadius (1 / 2) 0).2)).1 = 1 / 2 :=
  claim_C8_roundtrip (1 / 2) (by norm_num) (by norm_num)

/-! ### Circle drawing -/

lemma log_three_lt : Real.log 3 < 35 := by
  have h := Real.log_lt_sub_one_of_pos (show (0 : ℝ) < 3 by norm_num)
    (by norm_num : (3 : ℝ) ≠ 1)
  linarith

/-- Claim C6: `handleCircleDrawing(0.5, 0)` draws a circle of Euclidean
radius `0.5 * R` at the disk center; `handleCircleDrawing(0.5, 0.5)` fails
as ambiguous; `handleCircleDrawing(1, 0)` fails as out of domain; and any
gyrovector radius above 35 is rejected as too large. -/
theorem claim_C6_circle (d : Drawler) :
    handleCircleDrawing d (1 / 2) 0 =
      .ok (.arc d.X d.Y (1 / 2 * d.R) 0 (2 * π)) ∧
    handleCircleDrawing d (1 / 2) (1 / 2) = .error .ambiguousInput ∧
    handleCircleDrawing d 1 0 = .error .outOfDomain ∧
    ∀ rg : ℝ, 35 < rg → handleCircleDrawing d 0 rg = .error .tooLarge := by
  refine ⟨?_, ?_, ?_, ?_⟩
  · unfold handleCircleDrawing
    rw [if_neg (by push_neg; constructor <;> intro h <;> simp_all <;> norm_num)]
    rw [if_pos (by norm_num : (1 / 2 : ℝ) < 1)]
    have e1 : calculatePoincareAndGyrovectorRadius (1 / 2) 0 =
        (1 / 2, Real.log ((1 + 1 / 2) / (1 - 1 / 2))) := by
      unfold calculatePoincareAndGyrovectorRadius
      rw [if_pos ⟨by norm_num, rfl⟩]
    rw [e1]
    have e3 : ((1 : ℝ) + 1 / 2) / (1 - 1 / 2) = 3 := by norm_num
    rw [e3]
    rw [if_neg (by push_neg; exact le_of_lt (by linarith [log_three_lt]))]
  · unfold handleCircleDrawing
    rw [if_pos (Or.inl ⟨by norm_num, by norm_num⟩)]
  · unfold handleCircleDrawing
    rw [if_neg (by push_neg; constructor <;> intro h <;> simp_all)]
    rw [if_neg (by norm_num)]
  · intro rg hrg
    unfold handleCircleDrawing
    rw [if_neg (by
      rintro (⟨h, -⟩ | ⟨-, h⟩)
      · exact h rfl
      · rw [h] at hrg; linarith)]
    rw [if_pos (by norm_num : (0 : ℝ) < 1)]
    have e1 : calculatePoincareAndGyrovectorRadius 0 rg =
        (Real.tanh (rg / 2), rg) := by
      unfold calculatePoincareAndGyrovectorRadius
      rw [if_neg (fun h => h.1 rfl),
        if_pos ⟨by intro h; rw [h] at hrg; linarith, rfl⟩]
    rw [e1]
    rw [if_pos (by exact hrg)]

/-- Claim C6 witness: concrete instances of the guarded failure cases. -/
theorem claim_C6_witness :
    handleCircleDrawing ⟨0, 0, 1⟩ 0 36 = .error .tooLarge ∧
    handleCircleDrawing ⟨0, 0, 1⟩ (1 / 2) (1 / 2) = .error .ambiguousInput :=
  ⟨(claim_C6_circle ⟨0, 0, 1⟩).2.2.2 36 (by norm_num),
    (claim_C6_circle ⟨0, 0, 1⟩).2.1⟩

/-! ### The solvers never overwrite a known slot -/

lemma sineFill_preserves {G g S s : ℝ} {p : ℝ × ℝ}
    (h : sineFill G g S s = .ok p) :
    (S ≠ 0 → p.1 = S) ∧ (s ≠ 0 → p.2 = s) := by
  unfold sineFill at h
  split_ifs at h with h1 h2 h3
  · injection h with h'
    subst h'
    exact ⟨fun _ => rfl, fun hs => absurd h1.2 hs⟩
  · injection h with h'
    subst h'
    exact ⟨fun hS => absurd h2.2 hS, fun _ => rfl⟩
  · injection h with h'
    subst h'
    exact ⟨fun _ => rfl, fun _ => rfl⟩

lemma sineChain_preserves {G g sA sa sB sb sC sc : ℝ} {u : Tri}
    (h : (do
      let Bb ← sineFill G g sB sb
      let Cc ← sineFill G g sC sc
      let Aa ← sineFill G g sA sa
      pure (⟨Aa.1, Aa.2, Bb.1, Bb.2, Cc.1, Cc.2⟩ : Tri)) = Except.ok u) :
    (sA ≠ 0 → u.A = sA) ∧ (sa ≠ 0 → u.a = sa) ∧ (sB ≠ 0 → u.B = sB) ∧
    (sb ≠ 0 → u.b = sb) ∧ (sC ≠ 0 → u.C = sC) ∧ (sc ≠ 0 → u.c = sc) := by
  rcases hB : sineFill G g sB sb with e | Bb
  · rw [hB] at h; exact absurd h (by simp)
  rcases hC : sineFill G g sC sc with e | Cc
  · rw [hB, hC] at h; exact absurd h (by simp)
  rcases hA : sineFill G g sA sa with e | Aa
  · rw [hB, hC, hA] at h; exact absurd h (by simp)
  rw [hB, hC, hA] at h
  simp only [exceptBind_ok, exceptPure_eq_ok, Except.ok.injEq] at h
  subst h
  obtain ⟨pB1, pB2⟩ := sineFill_preserves hB
  obtain ⟨pC1, pC2⟩ := sineFill_preserves hC
  obtain ⟨pA1, pA2⟩ := sineFill_preserves hA
  exact ⟨pA1, pA2, pB1, pB2, pC1, pC2⟩

lemma updateBySineRule_preserves {sA sa sB sb sC sc : ℝ} {u : Tri}
    (h : updateBySineRule sA sa sB sb sC sc = .ok u) :
    (sA ≠ 0 → u.A = sA) ∧ (sa ≠ 0 → u.a = sa) ∧ (sB ≠ 0 → u.B = sB) ∧
    (sb ≠ 0 → u.b = sb) ∧ (sC ≠ 0 → u.C = sC) ∧ (sc ≠ 0 → u.c = sc) := by
  unfold updateBySineRule at h
  dsimp only at h
  split_ifs at h with h1 h2
  · exact sineChain_preserves h
  · injection h with h'
    subst h'
    exact ⟨fun _ => rfl, fun _ => rfl, fun _ => rfl, fun _ => rfl,
      fun _ => rfl, fun _ => rfl⟩
  · injection h with h'
    subst h'
    exact ⟨fun _ => rfl, fun _ => rfl, fun _ => rfl, fun _ => rfl,
      fun _ => rfl, fun _ => rfl⟩

lemma updateByFirstCosineRule_preserves (A a b c : ℝ) :
    (A ≠ 0 → (updateByFirstCosineRule A a b c).1 = A) ∧
    (a ≠ 0 → (updateByFirstCosineRule A a b c).2.1 = a) ∧
    (updateByFirstCosineRule A a b c).2.2.1 = b ∧
    (updateByFirstCosineRule A a b c).2.2.2 = c := by
  unfold updateByFirstCosineRule
  split_ifs with h1 h2
  · exact ⟨fun hA => absurd h1.2 hA, fun _ => rfl, rfl, rfl⟩
  · exact ⟨fun _ => rfl, fun ha => absurd h2.1 ha, rfl, rfl⟩
  · exact ⟨fun _ => rfl, fun _ => rfl, rfl, rfl⟩

lemma updateBySecondCosineRule_preserves {a A B C : ℝ} {q : ℝ × ℝ × ℝ × ℝ}
    (h : updateBySecondCosineRule a A B C = .ok q) :
    (a ≠ 0 → q.1 = a) ∧ (A ≠ 0 → q.2.1 = A) ∧ q.2.2.1 = B ∧ q.2.2.2 = C := by
  unfold updateBySecondCosineRule at h
  split_ifs at h with h1 h2 h3
  · injection h with h'
    subst h'
    exact ⟨fun _ => rfl, fun hA => absurd h1.2 hA, rfl, rfl⟩
  · injection h with h'
    subst h'
    exact ⟨fun ha => absurd h3.1 ha, fun _ => rfl, rfl, rfl⟩
  · injection h with h'
    subst h'
    exact ⟨fun _ => rfl, fun _ => rfl, rfl, rfl⟩

/-- Claim C10: the three rule solvers never overwrite a known slot - every
slot that is nonzero on entry is returned unchanged; only zero (unknown)
slots are filled. -/
theorem claim_C10_no_overwrite (sA sa sB sb sC sc A a b c a2 A2 B2 C2 : ℝ) :
    (∀ u : Tri, updateBySineRule sA sa sB sb sC sc = .ok u →
      (sA ≠ 0 → u.A = sA) ∧ (sa ≠ 0 → u.a = sa) ∧ (sB ≠ 0 → u.B = sB) ∧
      (sb ≠ 0 → u.b = sb) ∧ (sC ≠ 0 → u.C = sC) ∧ (sc ≠ 0 → u.c = sc)) ∧
    ((A ≠ 0 → (updateByFirstCosineRule A a b c).1 = A) ∧
      (a ≠ 0 → (updateByFirstCosineRule A a b c).2.1 = a) ∧
      (updateByFirstCosineRule A a b c).2.2.1 = b ∧
      (updateByFirstCosineRule A a b c).2.2.2 = c) ∧
    (∀ q : ℝ × ℝ × ℝ × ℝ, updateBySecondCosineRule a2 A2 B2 C2 = .ok q →
      (a2 ≠ 0 → q.1 = a2) ∧ (A2 ≠ 0 → q.2.1 = A2) ∧ q.2.2.1 = B2 ∧ q.2.2.2 = C2) :=
  ⟨fun _ h => updateBySineRule_preserves h,
    updateByFirstCosineRule_preserves A a b c,
    fun _ h => updateBySecondCosineRule_preserves h⟩

/-- Claim C10 witness: on the fully known input `(1, 2, 3, 4)` the first
cosine rule returns the known slots unchanged. -/
theorem claim_C10_witness :
    (updateByFirstCosineRule 1 2 3 4).1 = 1 ∧
    (updateByFirstCosineRule 1 2 3 4).2.1 = 2 := by
  have h := (claim_C10_no_overwrite 0 0 0 0 0 0 1 2 3 4 0 0 0 0).2.1
  exact ⟨h.1 one_ne_zero, h.2.1 two_ne_zero⟩

/-! ### Regular polygons -/

lemma createPolygon_ok (d : Drawler) (x : ℕ) (U One : ℝ) (hx : 3 ≤ x)
    (hU : U ≠ 0) (hlt : (x : ℝ) * U < ((x : ℝ) - 2) * 180) :
    ∃ ds, createPolygon d x U One = .ok ds ∧ ds.length = x := by
  have hA : U / 2 ≠ 0 := div_ne_zero hU two_ne_zero
  have hB : 2 * π / (x : ℝ) ≠ 0 := by
    have hx0 : ((x : ℕ) : ℝ) ≠ 0 := Nat.cast_ne_zero.mpr (by omega)
    have hπ := Real.pi_pos
    exact div_ne_zero (by positivity) hx0
  have e := updateBySecondCosineRule_side (a := 0) (A := U / 2)
    (B := 2 * π / (x : ℝ)) (C := U / 2) rfl hA hA hB
  unfold createPolygon
  rw [if_neg (by omega), if_neg (fun hor => hor.elim (fun h => by omega) hU),
    if_neg (by omega), if_neg (not_le.mpr hlt), e]
  refine ⟨_, rfl, ?_⟩
  rw [List.length_map, List.length_range]

/-- Claim C7: createPolygon rejects every side count below three (with the
error kind depending on the exact slip), rejects `n·U ≥ (n−2)·180` as
impossible in hyperbolic geometry, and for every accepted input issues
exactly `n` drawCurvature calls; in particular `(3, 70°)` is rejected as
impossible and `(5, 50°)` draws exactly 5 arcs. -/
theorem claim_C7_polygon (d : Drawler) (x : ℕ) (U One : ℝ) :
    (x = 0 → createPolygon d x U One = .error .invalidElements) ∧
    (1 ≤ x → x < 3 → U = 0 → createPolygon d x U One = .error .missingParams) ∧
    (1 ≤ x → x < 3 → U ≠ 0 → createPolygon d x U One = .error .invalidSides) ∧
    (3 ≤ x → U ≠ 0 → (x : ℝ) * U ≥ ((x : ℝ) - 2) * 180 →
      createPolygon d x U One = .error .impossibleHyp) ∧
    (3 ≤ x → U ≠ 0 → (x : ℝ) * U < ((x : ℝ) - 2) * 180 →
      ∃ ds, createPolygon d x U One = .ok ds ∧ ds.length = x) ∧
    createPolygon d 3 70 0 = .error .impossibleHyp ∧
    (∃ ds, createPolygon d 5 50 20 = .ok ds ∧ ds.length = 5) := by
  refine ⟨?_, ?_, ?_, ?_, fun h1 h2 h3 => createPolygon_ok d x U One h1 h2 h3,
    ?_, ?_⟩
  · intro hx0
    subst hx0
    unfold createPolygon
    rw [if_pos (by omega)]
  · intro h1 h2 hU0
    unfold createPolygon
    rw [if_neg (by omega), if_pos (Or.inr hU0)]
  · intro h1 h2 hU
    unfold createPolygon
    rw [if_neg (by omega), if_neg (fun hor => hor.elim (fun h => by omega) hU),
      if_pos h2]
  · intro h1 hU hge
    unfold createPolygon
    rw [if_neg (by omega), if_neg (fun hor => hor.elim (fun h => by omega) hU),
      if_neg (by omega), if_pos hge]
  · unfold createPolygon
    rw [if_neg (by omega), if_neg (by rintro (h | h) <;> norm_num at h),
      if_neg (by omega), if_pos (by push_cast; norm_num)]
  · exact createPolygon_ok d 5 50 20 (by omega) (by norm_num)
      (by push_cast; norm_num)

/-- Claim C7 witness: a two-sided polygon is rejected, and the impossible
triangle with 70-degree corners is rejected. -/
theorem claim_C7_witness :
    createPolygon ⟨0, 0, 1⟩ 2 70 0 = .error .invalidSides ∧
    createPolygon ⟨0, 0, 1⟩ 3 70 0 = .error .impossibleHyp :=
  ⟨(claim_C7_polygon ⟨0, 0, 1⟩ 2 70 0).2.2.1 (by omega) (by omega) (by norm_num),
    (claim_C7_polygon ⟨0, 0, 1⟩ 3 70 0).2.2.2.2.2.1⟩

/-! ### Geodesic lines and pencils of parallels -/

lemma log1999_pos : 0 < Real.log 1999 := Real.log_pos (by norm_num)

lemma sinh_log1999_ge : (999 : ℝ) ≤ Real.sinh (Real.log 1999) := by
  rw [Real.sinh_log (by norm_num : (0:ℝ) < 1999)]
  norm_num

lemma sinh_p999_lt : Real.sinh 0.999 < 6 / 5 :=
  lt_of_le_of_lt (Real.sinh_le_sinh.mpr (by norm_num)) sinh_one_lt

lemma sinh_p999_pos : 0 < Real.sinh 0.999 := Real.sinh_pos_iff.mpr (by norm_num)

/-- A geodesic between boundary angle 0 and any nonzero second angle in
`(-π, π)` succeeds: no wrap-around fires, the chord case is skipped, and the
inner sine-rule guard passes because `sinh(0.999) < sinh(log 1999)`. -/
lemma createHyperbolicLine_small (d : Drawler) (a2 : ℝ)
    (hlow : -π < a2) (hhigh : a2 < π) (hne : a2 ≠ 0) :
    ∃ w, createHyperbolicLine d 0 a2 = .ok w := by
  have hπ := Real.pi_pos
  have hπ315 := Real.pi_lt_315
  have habs_lt : |a2| < π := abs_lt.mpr ⟨hlow, hhigh⟩
  have habs_pos : 0 < |a2| := abs_pos.mpr hne
  have hs_pos : 0 < Real.sin |a2| := Real.sin_pos_of_pos_of_lt_pi habs_pos habs_lt
  have h999 := sinh_log1999_ge
  have hgt0 : (0:ℝ) < Real.sinh (Real.log 1999) :=
    lt_of_lt_of_le (by norm_num) h999
  have e0 : calculatePoincareAndGyrovectorRadius 0.999 0 =
      (0.999, Real.log 1999) := by
    unfold calculatePoincareAndGyrovectorRadius
    rw [if_pos ⟨by norm_num, rfl⟩]
    norm_num
  have e1 : updateByFirstCosineRule |a2| (Real.log 1999) (Real.log 1999)
      (Real.log 1999) = (|a2|, Real.log 1999, Real.log 1999, Real.log 1999) :=
    updateByFirstCosineRule_noop (ne_of_gt log1999_pos) (ne_of_gt habs_pos)
  have hguard : -1 < Real.sinh 0.999 * Real.sin |a2| / Real.sinh (Real.log 1999) ∧
      Real.sinh 0.999 * Real.sin |a2| / Real.sinh (Real.log 1999) < 1 := by
    have hb : Real.sinh 0.999 * Real.sin |a2| ≤ Real.sinh 0.999 :=
      mul_le_of_le_one_right (le_of_lt sinh_p999_pos) (Real.sin_le_one _)
    constructor
    · have : 0 < Real.sinh 0.999 * Real.sin |a2| / Real.sinh (Real.log 1999) :=
        div_pos (mul_pos sinh_p999_pos hs_pos) hgt0
      linarith
    · rw [div_lt_one hgt0]
      linarith [sinh_p999_lt]
  have e2 : updateBySineRule 0 0.999 0 0.999 |a2| (Real.log 1999) =
      .ok ⟨Real.arcsin (Real.sinh 0.999 * Real.sin |a2| / Real.sinh (Real.log 1999)),
        0.999,
        Real.arcsin (Real.sinh 0.999 * Real.sin |a2| / Real.sinh (Real.log 1999)),
        0.999, |a2|, Real.log 1999⟩ := by
    rw [updateBySineRule_basisC (fun h => h.2 rfl) (fun h => h.2 rfl)
      (ne_of_gt log1999_pos) (ne_of_gt habs_pos) (ne_of_gt hs_pos) (ne_of_gt hgt0)]
    rw [sineFill_angle (by norm_num) rfl hguard,
      sineFill_both (ne_of_gt habs_pos) (ne_of_gt log1999_pos)]
    simp only [exceptBind_ok, exceptPure_eq_ok]
  unfold createHyperbolicLine
  rw [if_neg (by push_neg; constructor <;> linarith)]
  rw [if_neg (fun h => hne h.symm)]
  rw [if_neg (by linarith : ¬(a2 - 0 > π))]
  dsimp only
  rw [if_neg (by linarith : ¬(0 - a2 > π))]
  have hCabs : (if a2 > (0:ℝ) then a2 - 0 else 0 - a2) = |a2| := by
    rcases lt_or_gt_of_ne hne with h | h
    · rw [if_neg (not_lt.mpr (le_of_lt h)), abs_of_neg h]
      ring
    · rw [if_pos h, abs_of_pos h]
      ring
  rw [hCabs]
  rw [if_neg (show ¬|(0:ℝ) - a2| = π by
    rw [zero_sub, abs_neg]; exact ne_of_lt habs_lt)]
  rw [e0]
  dsimp only
  rw [e1]
  dsimp only
  rw [e2]
  simp only [exceptBind_ok, exceptPure_eq_ok]
  exact ⟨_, rfl⟩

/-- Claim C9: createParallels(4, 0) succeeds with exactly 4 geodesic-line
draws, which are exactly the lines from the base angle 0 to the symmetric
offsets `+g, +2g, -g, -2g` with `g = 2π/(4+1) = 2π/5`; no extra 179-degree
line is inserted for the even count. -/
theorem claim_C9_parallels (d : Drawler) :
    ∃ w1 w2 w3 w4,
      createParallels d 4 0 = .ok [w1, w2, w3, w4] ∧
      createHyperbolicLine d 0 (2 * π / 5) = .ok w1 ∧
      createHyperbolicLine d 0 (2 * (2 * π / 5)) = .ok w2 ∧
      createHyperbolicLine d 0 (-(2 * π / 5)) = .ok w3 ∧
      createHyperbolicLine d 0 (-(2 * (2 * π / 5))) = .ok w4 := by
  have hπ := Real.pi_pos
  obtain ⟨w1, h1⟩ := createHyperbolicLine_small d (2 * π / 5)
    (by linarith) (by linarith) (ne_of_gt (by positivity))
  obtain ⟨w2, h2⟩ := createHyperbolicLine_small d (2 * (2 * π / 5))
    (by linarith) (by linarith) (ne_of_gt (by positivity))
  obtain ⟨w3, h3⟩ := createHyperbolicLine_small d (-(2 * π / 5))
    (by linarith) (by linarith) (neg_ne_zero.mpr (ne_of_gt (by positivity)))
  obtain ⟨w4, h4⟩ := createHyperbolicLine_small d (-(2 * (2 * π / 5)))
    (by linarith) (by linarith) (neg_ne_zero.mpr (ne_of_gt (by positivity)))
  refine ⟨w1, w2, w3, w4, ?_, h1, h2, h3, h4⟩
  have e1 : (0:ℝ) + (((0:ℕ):ℝ) + 1) * (2 * π / (((4:ℕ):ℝ) + 1)) = 2 * π / 5 := by
    push_cast; ring
  have e2 : (0:ℝ) + (((1:ℕ):ℝ) + 1) * (2 * π / (((4:ℕ):ℝ) + 1)) =
      2 * (2 * π / 5) := by
    push_cast; ring
  have e3 : (0:ℝ) - (((0:ℕ):ℝ) + 1) * (2 * π / (((4:ℕ):ℝ) + 1)) =
      -(2 * π / 5) := by
    push_cast; ring
  have e4 : (0:ℝ) - (((1:ℕ):ℝ) + 1) * (2 * π / (((4:ℕ):ℝ) + 1)) =
      -(2 * (2 * π / 5)) := by
    push_cast; ring
  unfold createParallels
  rw [if_neg (by norm_num : ¬(0:ℝ) > 360), if_neg (by norm_num : ¬(4:ℕ) = 0),
    if_neg (by norm_num : ¬(4:ℕ) % 2 = 1)]
  rw [show List.range (4 / 2) = [0, 1] from rfl]
  simp only [drawEach]
  rw [e1, e2, e3, e4, h1, h2, h3, h4]
  rfl
